import Mathlib

/-!
# Verification of the multi-agent research task orchestrator

A shallow embedding of the task lifecycle, admission control, agent fan-out,
source deduplication, retention sweep and progress aggregation logic of the
repository (deep-research-api task manager and news-api progress tracking),
together with theorems settling the specification claims.

External collaborators (the AI agent executor, configuration advisor and
synthesizer) are modelled by passing their settled outcomes as parameters:
a promise that resolves is an `Except.ok` / `resolved` value, a promise that
rejects is an `Except.error` / `rejected` value.  JavaScript numbers are
modelled as rationals, timestamps as integers (milliseconds), JS `Map` as an
association list preserving insertion order and JS `Set` as a duplicate-free
list.
-/

namespace Spec2Proof

/-! ## Constants (deep-research-api constants module) -/

def MAX_AGENTS_MANUAL : Nat := 10

def MAX_AGENTS_GO_DEEPER : Nat := 100

def DEFAULT_AUTO_AGENTS_FALLBACK : Nat := 3

def GO_DEEPER_AGENT_TEMPERATURE : ℚ := 1

def MAX_CONCURRENT_RESEARCH_TASKS : Nat := 10

def TASK_CLEANUP_INTERVAL_MS : Int := 60 * 60 * 1000

def COMPLETED_TASK_RETENTION_MS : Int := 24 * 60 * 60 * 1000

def GO_DEEPER_AGENT_FOCUS_PROMPT (topic : String) : String :=
  "You are an independent, highly creative research agent. Your main research topic is: \"" ++
  topic ++ "\".\n" ++
  "Formulate a unique and insightful sub-question related to this main topic.\n" ++
  "Then, conduct deep research on YOUR SELF-DEFINED SUB-QUESTION using Google Search.\n" ++
  "Aim for novel perspectives and uncover less obvious information. Your output should be the research summary."

/-! ## Data model (deep-research-api types module) -/

inductive ResponseType where
  | Report
  | Article
  | ResearchPaper
deriving Repr, DecidableEq

def ResponseType.toStr : ResponseType → String
  | .Report => "Report"
  | .Article => "Article"
  | .ResearchPaper => "Research Paper"

structure DynamicAgentConfig where
  name : String
  focus : String
  temperature : ℚ
deriving Repr, DecidableEq

structure AgentConfig where
  id : String
  name : String
  focus : String
  temperature : ℚ
deriving Repr, DecidableEq

structure AutoAgentSetup where
  agentCount : Nat
  agents : List DynamicAgentConfig
deriving Repr, DecidableEq

structure Source where
  id : Nat
  uri : String
  title : String
deriving Repr, DecidableEq

inductive AgentState where
  | pending
  | configuring
  | researching
  | synthesizing
  | completed
  | error
deriving Repr, DecidableEq

structure AgentStatus where
  id : String
  name : String
  status : AgentState
  message : Option String := none
  research : Option String := none
  sources : Option (List Source) := none
deriving Repr, DecidableEq

structure ResearchRequest where
  researchTopic : String
  numAgents : Option Nat := none
  autoAgents : Option Bool := none
  responseType : Option ResponseType := none
  includeCitations : Option Bool := none
  limitCitationsToThree : Option Bool := none
  goDeeper : Option Bool := none
deriving Repr, DecidableEq

inductive TaskStatus where
  | started
  | configuring
  | researching
  | synthesizing
  | completed
  | error
deriving Repr, DecidableEq

structure ResearchTask where
  id : String
  request : ResearchRequest
  status : TaskStatus
  progress : ℚ
  agentStatuses : List AgentStatus
  finalReport : Option String := none
  sources : Option (List Source) := none
  error : Option String := none
  createdAt : Int
  updatedAt : Int
deriving Repr, DecidableEq

/-- JS result of an agent run: the resolved value of runResearchAgent. -/
structure ResearchResult where
  researchSummary : String
  sources : List Source
deriving Repr, DecidableEq

def AGENT_PROFILES : List AgentConfig := [
  { id := "analyst", name := "Analyst Agent", focus := "Provide a factual overview, key statistics, and data points related to the research topic. Focus on objective information.", temperature := 2/10 },
  { id := "critic", name := "Critical Agent", focus := "Identify potential criticisms, counterarguments, challenges, and limitations concerning the research topic. Explore alternative perspectives.", temperature := 7/10 },
  { id := "innovator", name := "Innovator Agent", focus := "Explore future implications, potential innovations, novel applications, and forward-looking trends related to the research topic.", temperature := 9/10 },
  { id := "historian", name := "Historical Agent", focus := "Investigate the historical background, evolution, and significant past events or developments relevant to the research topic.", temperature := 3/10 },
  { id := "ethicist", name := "Ethics Agent", focus := "Analyze the ethical considerations, societal impacts, and moral dilemmas associated with the research topic.", temperature := 6/10 },
  { id := "comparative", name := "Comparative Agent", focus := "Compare and contrast the research topic with related concepts, similar technologies, or alternative approaches. Highlight similarities and differences.", temperature := 5/10 },
  { id := "contextual", name := "Contextual Agent", focus := "Examine the broader context in which the research topic exists, including regulatory, economic, social, and technological factors.", temperature := 4/10 },
  { id := "data-miner", name := "Data Mining Agent", focus := "Extract specific quantitative data, statistics, and figures related to the research topic. Focus on numerical evidence.", temperature := 1/10 },
  { id := "impact-assessor", name := "Impact Assessment Agent", focus := "Evaluate the potential positive and negative impacts of the research topic across different sectors or demographics.", temperature := 65/100 },
  { id := "solution-seeker", name := "Solution Seeker Agent", focus := "If the research topic involves a problem, explore potential solutions, existing remedies, and innovative approaches to address it.", temperature := 75/100 }
]

/-! ## JS helpers -/

/-- JS `a || d` for an optional number: `undefined` and `0` are falsy. -/
def jsOrNat (a : Option Nat) (d : Nat) : Nat :=
  match a with
  | none => d
  | some n => if n = 0 then d else n

/-- JS `a || d` for an optional string: `undefined` and the empty string are falsy. -/
def jsOrStr (a : Option String) (d : String) : String :=
  match a with
  | none => d
  | some s => if s = "" then d else s

/-- JS whitespace class (the regex `\s`). -/
def isJsWhitespace (c : Char) : Bool :=
  c = ' ' ∨ c = '\t' ∨ c = '\n' ∨ c = '\x0b' ∨ c = '\x0c' ∨ c = '\r' ∨
  c = ' ' ∨ c = ' ' ∨ (' ' ≤ c ∧ c ≤ ' ') ∨
  c = ' ' ∨ c = ' ' ∨ c = ' ' ∨ c = ' ' ∨ c = '　' ∨ c = '﻿'

/-- `name.replace(/\s+/g, "-")`: collapse each run of whitespace into one dash.
The Boolean flag records whether the previous character was part of a run. -/
def collapseWs : Bool → List Char → List Char
  | _, [] => []
  | inRun, c :: rest =>
    if isJsWhitespace c then
      if inRun then collapseWs true rest else '-' :: collapseWs true rest
    else c :: collapseWs false rest

/-- Internal agent id: `agentName.replace(/\s+/g, "-") + "-" + index`. -/
def agentInternalIdOf (name : String) (index : Nat) : String :=
  String.mk (collapseWs false name.data) ++ "-" ++ toString index

/-- JS `s.startsWith(p)`, on the character lists. -/
def strStartsWith (s p : String) : Bool :=
  p.data.isPrefixOf s.data

/-- JS `s.substring(0, n)`. -/
def strTake (s : String) (n : Nat) : String :=
  String.mk (s.data.take n)

/-- JS `s.trim()`: strip leading and trailing whitespace. -/
def strTrim (s : String) : String :=
  String.mk (((s.data.dropWhile isJsWhitespace).reverse.dropWhile isJsWhitespace).reverse)

/-! ## Registry state (TaskManager fields) -/

structure TaskManagerState where
  tasks : List (String × ResearchTask)
  activeTasks : List String
deriving Repr, DecidableEq

def initialState : TaskManagerState := { tasks := [], activeTasks := [] }

/-- JS `Map.get`. -/
def mapGet (m : List (String × ResearchTask)) (k : String) : Option ResearchTask :=
  match m.find? (fun p => p.1 == k) with
  | some p => some p.2
  | none => none

/-- JS `Map.set`: replace in place if present (keeping insertion order), else append. -/
def mapSet (m : List (String × ResearchTask)) (k : String) (v : ResearchTask) :
    List (String × ResearchTask) :=
  if m.any (fun p => p.1 == k) then
    m.map (fun p => if p.1 == k then (k, v) else p)
  else m ++ [(k, v)]

/-- JS `Set.add`. -/
def setAdd (s : List String) (x : String) : List String :=
  if x ∈ s then s else s ++ [x]

def capacityErrorMessage : String :=
  "Maximum number of concurrent tasks (" ++ toString MAX_CONCURRENT_RESEARCH_TASKS ++
  ") reached. Please try again later."

/-- TaskManager.createTask.  Returns the state after the call together with the
JS outcome: `.ok taskId` on success, `.error msg` for the thrown capacity error
(the throw happens before any mutation, so the state is returned unchanged).
The fresh uuid is passed in as `taskId`; `now` is the current time. -/
def createTask (st : TaskManagerState) (taskId : String) (request : ResearchRequest)
    (now : Int) : TaskManagerState × Except String String :=
  if MAX_CONCURRENT_RESEARCH_TASKS ≤ st.activeTasks.length then
    (st, .error capacityErrorMessage)
  else
    let task : ResearchTask :=
      { id := taskId, request := request, status := .started, progress := 0,
        agentStatuses := [], createdAt := now, updatedAt := now }
    ({ tasks := mapSet st.tasks taskId task,
       activeTasks := setAdd st.activeTasks taskId }, .ok taskId)

/-- TaskManager.getTask. -/
def getTask (st : TaskManagerState) (taskId : String) : Option ResearchTask :=
  mapGet st.tasks taskId

/-! ## Registry mutators.  Each touches only the `tasks` field, mirroring the
source methods, so the `activeTasks` projection is preserved definitionally. -/

def updateTaskStatus (st : TaskManagerState) (taskId : String) (status : TaskStatus)
    (progress : Option ℚ) (now : Int) : TaskManagerState :=
  { st with tasks :=
      match mapGet st.tasks taskId with
      | none => st.tasks
      | some task =>
        let task := { task with status := status }
        let task :=
          match progress with
          | some p => { task with progress := min 100 (max 0 p) }
          | none => task
        mapSet st.tasks taskId { task with updatedAt := now } }

def updateTaskProgress (st : TaskManagerState) (taskId : String) (progress : ℚ)
    (now : Int) : TaskManagerState :=
  { st with tasks :=
      match mapGet st.tasks taskId with
      | none => st.tasks
      | some task =>
        mapSet st.tasks taskId
          { task with progress := min 100 (max 0 progress), updatedAt := now } }

def updateAgentStatuses (st : TaskManagerState) (taskId : String)
    (statuses : List AgentStatus) (now : Int) : TaskManagerState :=
  { st with tasks :=
      match mapGet st.tasks taskId with
      | none => st.tasks
      | some task =>
        mapSet st.tasks taskId { task with agentStatuses := statuses, updatedAt := now } }

/-- Replace the first list entry satisfying `p` (JS findIndex + assignment);
`none` when no entry matches. -/
def replaceFirst (p : AgentStatus → Bool) (f : AgentStatus → AgentStatus) :
    List AgentStatus → Option (List AgentStatus)
  | [] => none
  | s :: rest =>
    if p s then some (f s :: rest)
    else (replaceFirst p f rest).map (fun l => s :: l)

/-- TaskManager.updateSingleAgentStatus: the spread sets `status`, `message`,
`research` and `sources` unconditionally, so an absent argument clears the field. -/
def updateSingleAgentStatus (st : TaskManagerState) (taskId agentId : String)
    (status : AgentState) (message research : Option String)
    (sources : Option (List Source)) (now : Int) : TaskManagerState :=
  { st with tasks :=
      match mapGet st.tasks taskId with
      | none => st.tasks
      | some task =>
        match replaceFirst (fun s => s.id == agentId)
            (fun s => { s with
              status := status
              message := message
              research := research
              sources := sources })
            task.agentStatuses with
        | none => st.tasks
        | some statuses =>
          mapSet st.tasks taskId { task with agentStatuses := statuses, updatedAt := now } }

def addAgentStatus (st : TaskManagerState) (taskId : String) (status : AgentStatus)
    (now : Int) : TaskManagerState :=
  { st with tasks :=
      match mapGet st.tasks taskId with
      | none => st.tasks
      | some task =>
        mapSet st.tasks taskId
          { task with agentStatuses := task.agentStatuses ++ [status], updatedAt := now } }

def completeTask (st : TaskManagerState) (taskId : String) (finalReport : String)
    (sources : List Source) (now : Int) : TaskManagerState :=
  { st with tasks :=
      match mapGet st.tasks taskId with
      | none => st.tasks
      | some task =>
        mapSet st.tasks taskId
          { task with
            status := .completed
            progress := 100
            finalReport := some finalReport
            sources := some sources
            updatedAt := now } }

def updateTaskWithError (st : TaskManagerState) (taskId : String) (error : String)
    (now : Int) : TaskManagerState :=
  { st with tasks :=
      match mapGet st.tasks taskId with
      | none => st.tasks
      | some task =>
        mapSet st.tasks taskId
          { task with
            status := .error
            error := some error
            updatedAt := now
            agentStatuses := task.agentStatuses.map (fun s =>
              if s.status = .researching ∨ s.status = .synthesizing ∨ s.status = .pending then
                { s with
                  status := .error
                  message := some (if s.status = .pending then "Process halted."
                                   else strTake error 100 ++ "...") }
              else s) } }

/-- The `finally` block of processTask: release the concurrency slot. -/
def releaseSlot (st : TaskManagerState) (taskId : String) : TaskManagerState :=
  { st with activeTasks := st.activeTasks.erase taskId }

/-- TaskManager.cleanupOldTasks: collect the terminal tasks strictly older than
the retention window, then delete them from the map and the active set. -/
def cleanupOldTasks (st : TaskManagerState) (now : Int) : TaskManagerState :=
  let tasksToDelete : List String :=
    (st.tasks.filter (fun p =>
      decide ((p.2.status = .completed ∨ p.2.status = .error) ∧
        COMPLETED_TASK_RETENTION_MS < now - p.2.updatedAt))).map (fun p => p.1)
  { tasks := st.tasks.filter (fun p => decide (¬ p.1 ∈ tasksToDelete)),
    activeTasks := st.activeTasks.filter (fun id => decide (¬ id ∈ tasksToDelete)) }

/-! ## Source deduplication (processTask uniqueSourceMap loop) -/

/-- The uniqueSourceMap loop: `seen` is the key set of the map built so far,
`counter` the running id.  A source is kept when its uri is truthy (nonempty)
and not yet seen; kept sources get sequential ids. -/
def dedupSourcesAux : List Source → List String → Nat → List Source
  | [], _, _ => []
  | src :: rest, seen, counter =>
    if src.uri ≠ "" ∧ ¬ src.uri ∈ seen then
      { src with id := counter } :: dedupSourcesAux rest (src.uri :: seen) (counter + 1)
    else
      dedupSourcesAux rest seen counter

def dedupSources (allSources : List Source) : List Source :=
  dedupSourcesAux allSources [] 1

/-! ## Gemini service (geminiService module).  The external API call is a
parameter: `resolved text` is a response whose `.text` may be `undefined`,
`rejected msg` a rejected promise. -/

inductive ApiTextOutcome where
  | resolved (text : Option String)
  | rejected (msg : String)
deriving Repr, DecidableEq

def notInitializedMessage : String :=
  "Gemini service not initialized. Call initializeGeminiService first."

/-- Grounding chunk of a research response: the optional `web.uri` and
`web.title` fields (both absent when `web` itself is absent). -/
structure GroundingChunk where
  uri : Option String
  title : Option String
deriving Repr, DecidableEq

inductive AgentApiOutcome where
  | resolved (text : Option String) (chunks : Option (List GroundingChunk))
  | rejected (msg : String)
deriving Repr, DecidableEq

/-- runResearchAgent.  Rejects (`.error`) only when the service is not
initialized; every research failure is caught and resolved into an
`Error:`-prefixed summary with no sources. -/
def runResearchAgent (initialized : Bool) (agentConfig : DynamicAgentConfig)
    (outcome : AgentApiOutcome) : Except String ResearchResult :=
  if ¬ initialized then .error notInitializedMessage
  else
    match outcome with
    | .rejected msg =>
      .ok { researchSummary := "Error: Could not complete research for " ++
              agentConfig.name ++ ". " ++ msg,
            sources := [] }
    | .resolved none _ =>
      .ok { researchSummary := "Error: Received undefined text response from AI for agent " ++
              agentConfig.name ++ ".",
            sources := [] }
    | .resolved (some text) chunks =>
      let sources : List Source :=
        match chunks with
        | none => []
        | some cs =>
          ((cs.enum.map (fun p =>
            { id := p.1 + 1
              uri := jsOrStr p.2.uri ""
              title := jsOrStr p.2.title (jsOrStr p.2.uri "Untitled Source") : Source })).filter
            (fun s => s.uri ≠ ""))
      .ok { researchSummary := text, sources := sources }

def agentSummariesText (agentResults : List (String × String)) : String :=
  let s := String.intercalate "\n\n"
    (agentResults.map (fun r => "--- Research from " ++ r.1 ++ " ---\n" ++ r.2))
  if strTrim s = "" then
    "No research data was gathered by the agents, or all agents encountered errors."
  else s

/-- The string built by the catch branch of synthesizeReport. -/
def synthErrorReport (errorMessage originalQuery : String) (responseType : ResponseType)
    (includeCitations : Bool) (agentSummaries : String) : String :=
  "Error: Could not synthesize the final report. " ++ errorMessage ++
  "\n\nDEBUG INFO:\nOriginal Query: " ++ originalQuery ++
  "\nResponse Type: " ++ responseType.toStr ++
  "\nCitations: " ++ (if includeCitations then "true" else "false") ++
  "\nAgent Summaries Snippet: " ++ strTake agentSummaries 200

/-- synthesizeReport.  It rejects only when the service is not initialized
(that throw precedes the try block); an undefined response text or a failed
API call is caught and resolved into an `Error:`-prefixed report string. -/
def synthesizeReport (initialized : Bool) (originalQuery : String)
    (agentResults : List (String × String)) (allSources : List Source)
    (responseType : ResponseType) (includeCitations limitCitationsToThree : Bool)
    (outcome : ApiTextOutcome) : Except String String :=
  if ¬ initialized then .error notInitializedMessage
  else
    let agentSummaries := agentSummariesText agentResults
    match outcome with
    | .resolved (some text) => .ok text
    | .resolved none =>
      .ok (synthErrorReport "Received undefined text response from AI for synthesis."
        originalQuery responseType includeCitations agentSummaries)
    | .rejected msg =>
      .ok (synthErrorReport msg originalQuery responseType includeCitations agentSummaries)

/-! ## Citation rewriting (processTask processedReport).  The regex
`\[(\d+)\](?:[^\S\r\n]*\([^)]*\))?` scans for bracketed numeric markers with an
optional parenthesized group; a marker whose number matches a source id with a
nonempty uri is replaced by a markdown link. -/

def isInlineWhitespace (c : Char) : Bool :=
  isJsWhitespace c ∧ c ≠ '\r' ∧ c ≠ '\n'

/-- Split the leading ASCII digit run (the regex `\d+`). -/
def takeDigits : List Char → List Char × List Char
  | [] => ([], [])
  | c :: rest =>
    if c.isDigit then
      let p := takeDigits rest
      (c :: p.1, p.2)
    else ([], c :: rest)

def digitsToNat (ds : List Char) : Nat :=
  ds.foldl (fun n c => n * 10 + (c.toNat - '0'.toNat)) 0

/-- Try the optional group `[^\S\r\n]*\([^)]*\)`: inline whitespace, an opening
parenthesis, any characters up to the first closing parenthesis.  Returns the
matched characters and the rest, or `none` when the group does not match. -/
def tryParenGroup (l : List Char) : Option (List Char × List Char) :=
  let ws := l.takeWhile isInlineWhitespace
  let rest := l.drop ws.length
  match rest with
  | '(' :: r2 =>
    let body := r2.takeWhile (fun c => c ≠ ')')
    let r3 := r2.drop body.length
    match r3 with
    | ')' :: r4 => some (ws ++ '(' :: body ++ [')'], r4)
    | _ => none
  | _ => none

/-- Global regex scan.  The fuel is an upper bound on the number of scanning
steps; every step consumes at least one character, so the input length is
always enough fuel. -/
def scanCitations (sources : List Source) : Nat → List Char → List Char
  | 0, l => l
  | _ + 1, [] => []
  | fuel + 1, c :: rest =>
    if c = '[' then
      match takeDigits rest with
      | ([], _) => '[' :: scanCitations sources fuel rest
      | (d :: ds, rest2) =>
        match rest2 with
        | ']' :: rest3 =>
          let opt := match tryParenGroup rest3 with
            | some p => p
            | none => (([] : List Char), rest3)
          let n := digitsToNat (d :: ds)
          match sources.find? (fun s => s.id == n) with
          | some s =>
            if s.uri ≠ "" then
              ('[' :: (toString n).data ++ ']' :: '(' :: s.uri.data ++ [')']) ++
                scanCitations sources fuel opt.2
            else ('[' :: (d :: ds) ++ ']' :: opt.1) ++ scanCitations sources fuel opt.2
          | none => ('[' :: (d :: ds) ++ ']' :: opt.1) ++ scanCitations sources fuel opt.2
        | _ => '[' :: scanCitations sources fuel rest
    else c :: scanCitations sources fuel rest

def rewriteCitations (report : String) (finalUniqueSources : List Source) : String :=
  String.mk (scanCitations finalUniqueSources report.data.length report.data)

/-! ## processTask -/

def profileToDynamic (p : AgentConfig) : DynamicAgentConfig :=
  { name := p.name, focus := p.focus, temperature := p.temperature }

def defaultProfile : AgentConfig :=
  { id := "", name := "", focus := "", temperature := 0 }

/-- Agent-configuration resolution (first section of processTask): returns the
updated state, currentAgentCount and dynamicAgentConfigs.  `autoConfig` is the
settled outcome of determineAgentConfiguration; its failure is caught and falls
back to the first DEFAULT_AUTO_AGENTS_FALLBACK fixed profiles. -/
def configResolution (st : TaskManagerState) (taskId : String)
    (request : ResearchRequest) (autoConfig : Except String AutoAgentSetup)
    (now : Int) : TaskManagerState × Nat × List DynamicAgentConfig :=
  if request.goDeeper.getD false then
    (st, MAX_AGENTS_GO_DEEPER,
      (List.range MAX_AGENTS_GO_DEEPER).map (fun i =>
        { name := "Creative Agent #" ++ toString (i + 1)
          focus := GO_DEEPER_AGENT_FOCUS_PROMPT request.researchTopic
          temperature := GO_DEEPER_AGENT_TEMPERATURE }))
  else if request.autoAgents.getD false then
    let st := updateTaskStatus st taskId .configuring (some 5) now
    let st := updateAgentStatuses st taskId
      [{ id := "configurator", name := "AI Configurator", status := .configuring,
         message := some "Determining optimal agent setup..." }] now
    match autoConfig with
    | .ok autoSetup =>
      let st := updateAgentStatuses st taskId
        [{ id := "configurator", name := "AI Configurator", status := .completed,
           message := some ("Configured " ++ toString autoSetup.agentCount ++ " agents.") }] now
      (st, autoSetup.agentCount, autoSetup.agents)
    | .error _ =>
      (st, DEFAULT_AUTO_AGENTS_FALLBACK,
        (AGENT_PROFILES.take DEFAULT_AUTO_AGENTS_FALLBACK).map profileToDynamic)
  else
    let currentAgentCount := min (jsOrNat request.numAgents DEFAULT_AUTO_AGENTS_FALLBACK)
      MAX_AGENTS_MANUAL
    (st, currentAgentCount,
      (List.range currentAgentCount).map (fun i =>
        profileToDynamic ((AGENT_PROFILES.get? (i % AGENT_PROFILES.length)).getD
          defaultProfile)))

/-- The value each agent promise resolves with. -/
structure AgentRecord where
  researchSummary : String
  sources : List Source
  agentName : String
  agentInternalId : String
deriving Repr, DecidableEq

/-- Resolution of one agent promise (the part after `await runResearchAgent`):
bumps the completed-step counter, updates the task progress, classifies the
outcome by the `Error:` prefix and records the per-agent status.  A rejected
promise is caught and yields an error record with no sources. -/
def resolveAgent (taskId : String) (totalSteps : Nat) (now : Int)
    (acc : TaskManagerState × Nat × List AgentRecord)
    (cfg : DynamicAgentConfig) (index : Nat)
    (outcome : Except String ResearchResult) :
    TaskManagerState × Nat × List AgentRecord :=
  let agentInternalId := agentInternalIdOf cfg.name index
  match outcome with
  | .ok result =>
    let completedSteps := acc.2.1 + 1
    let progress : ℚ := 10 + (((completedSteps : ℚ) / (totalSteps : ℚ)) * 80)
    let st := updateTaskProgress acc.1 taskId progress now
    let isErr := strStartsWith result.researchSummary "Error:"
    let status : AgentState := if isErr then .error else .completed
    let message := if isErr then strTake result.researchSummary 100 ++ "..."
      else "Found " ++ toString result.sources.length ++ " potential sources."
    let st := updateSingleAgentStatus st taskId agentInternalId status (some message)
      (some result.researchSummary) (some result.sources) now
    (st, completedSteps,
      acc.2.2 ++ [{ researchSummary := result.researchSummary
                    sources := result.sources
                    agentName := cfg.name
                    agentInternalId := agentInternalId }])
  | .error err =>
    let completedSteps := acc.2.1 + 1
    let progress : ℚ := 10 + (((completedSteps : ℚ) / (totalSteps : ℚ)) * 80)
    let st := updateTaskProgress acc.1 taskId progress now
    let st := updateSingleAgentStatus st taskId agentInternalId .error (some err)
      none none now
    (st, completedSteps,
      acc.2.2 ++ [{ researchSummary := "Error: Could not complete research for " ++
                      cfg.name ++ ". " ++ err
                    sources := []
                    agentName := cfg.name
                    agentInternalId := agentInternalId }])

/-- `agentResults.filter(r => !r.researchSummary.startsWith("Error:"))`. -/
def successfulResultsOf (records : List AgentRecord) : List AgentRecord :=
  records.filter (fun r => ¬ strStartsWith r.researchSummary "Error:")

/-- The allSources accumulation: push the sources of every record whose summary
does not start with `Error:`. -/
def allSourcesOf (records : List AgentRecord) : List Source :=
  records.foldl (fun acc r =>
    if strStartsWith r.researchSummary "Error:" then acc else acc ++ r.sources) []

/-- The research phase of processTask: agent-configuration resolution, status
initialization (preserving a completed configurator entry), transition to
`researching` at 10 percent and the concurrent agent fan-out.  The fan-out is
linearized in index order; every agent promise first marks its agent
`researching` synchronously, then the resolutions are folded in Promise.all
order.  Returns the updated state and the agent result records. -/
def researchPhase (st : TaskManagerState) (taskId : String) (task : ResearchTask)
    (autoConfig : Except String AutoAgentSetup)
    (agentOutcome : Nat → Except String ResearchResult)
    (now : Int) : TaskManagerState × List AgentRecord :=
  let request := task.request
  let cfgRes := configResolution st taskId request autoConfig now
  let st := cfgRes.1
  let currentAgentCount := cfgRes.2.1
  let dynamicAgentConfigs := cfgRes.2.2
  let initialAgentStatuses : List AgentStatus := dynamicAgentConfigs.enum.map (fun p =>
    { id := agentInternalIdOf p.2.name p.1, name := p.2.name, status := .pending })
  let currentTask := (mapGet st.tasks taskId).getD task
  let configuratorStatus := currentTask.agentStatuses.find? (fun s =>
    s.id == "configurator" && s.status == AgentState.completed)
  let allAgentStatuses := match configuratorStatus with
    | some c => c :: initialAgentStatuses
    | none => initialAgentStatuses
  let st := updateAgentStatuses st taskId allAgentStatuses now
  let st := updateTaskStatus st taskId .researching (some 10) now
  let totalSteps := currentAgentCount + 1
  let completedSteps0 : Nat :=
    if request.autoAgents.getD false ∧ ¬ request.goDeeper.getD false then 1 else 0
  let st := dynamicAgentConfigs.enum.foldl (fun st p =>
    updateSingleAgentStatus st taskId (agentInternalIdOf p.2.name p.1) .researching
      (some "Starting investigation...") none none now) st
  let resolved := dynamicAgentConfigs.enum.foldl (fun acc p =>
    resolveAgent taskId totalSteps now acc p.2 p.1 (agentOutcome p.1))
    (st, completedSteps0, ([] : List AgentRecord))
  (resolved.1, resolved.2.2)

/-- The synthesis phase of processTask: filter the successful results,
deduplicate the gathered sources, transition to `synthesizing` at 90 percent,
call the synthesizer and finish with completeTask, or with updateTaskWithError
when the synthesizer promise rejects. -/
def synthesisPhase (st : TaskManagerState) (taskId : String)
    (request : ResearchRequest) (agentResults : List AgentRecord)
    (synthInitialized : Bool) (synthOutcome : ApiTextOutcome)
    (now : Int) : TaskManagerState :=
  let successfulResults := successfulResultsOf agentResults
  let allSources := allSourcesOf agentResults
  let finalUniqueSources := dedupSources allSources
  let st := updateTaskStatus st taskId .synthesizing (some 90) now
  let st := addAgentStatus st taskId
    { id := "synthesis-engine", name := "Synthesis Engine", status := .synthesizing,
      message := some "Compiling final report..." } now
  match synthesizeReport synthInitialized request.researchTopic
      (successfulResults.map (fun r => (r.agentName, r.researchSummary)))
      finalUniqueSources (request.responseType.getD .Report)
      (request.includeCitations.getD true) (request.limitCitationsToThree.getD true)
      synthOutcome with
  | .error msg => updateTaskWithError st taskId msg now
  | .ok report =>
    let processedReport :=
      if request.includeCitations.getD true ∧ 0 < finalUniqueSources.length then
        rewriteCitations report finalUniqueSources
      else report
    let st := updateSingleAgentStatus st taskId "synthesis-engine" .completed
      (some "Report generated.") none none now
    completeTask st taskId processedReport finalUniqueSources now

/-- The try-block of processTask (the inner catch folded in): every branch ends
with either completeTask or updateTaskWithError.  `task` is the registry entry
found at entry, `agentOutcome i` the settled promise of agent `i`. -/
def tryProcess (st : TaskManagerState) (taskId : String) (task : ResearchTask)
    (autoConfig : Except String AutoAgentSetup)
    (agentOutcome : Nat → Except String ResearchResult)
    (synthInitialized : Bool) (synthOutcome : ApiTextOutcome)
    (now : Int) : TaskManagerState :=
  if strTrim task.request.researchTopic = "" then
    updateTaskWithError st taskId "Research topic is required and cannot be empty" now
  else
    let r := researchPhase st taskId task autoConfig agentOutcome now
    synthesisPhase r.1 taskId task.request r.2 synthInitialized synthOutcome now

/-- TaskManager.processTask.  When the task is absent the function throws
before the try block, so the finally does not run and the promise rejects;
otherwise the inner catch absorbs every failure, the finally releases the
concurrency slot and the promise resolves. -/
def processTask (st : TaskManagerState) (taskId : String)
    (autoConfig : Except String AutoAgentSetup)
    (agentOutcome : Nat → Except String ResearchResult)
    (synthInitialized : Bool) (synthOutcome : ApiTextOutcome)
    (now : Int) : TaskManagerState × Except String Unit :=
  match mapGet st.tasks taskId with
  | none => (st, .error ("Task " ++ taskId ++ " not found"))
  | some task =>
    (releaseSlot
      (tryProcess st taskId task autoConfig agentOutcome synthInitialized synthOutcome now)
      taskId, .ok ())

/-! ## News-api progress tracking (progressTrackingService module) -/

inductive GenPhase where
  | initializing
  | discovery
  | selection
  | researching
  | writing
  | publishing
  | completed
  | failed
deriving Repr, DecidableEq

/-- The phaseWeights table of calculateOverallProgress. -/
def phaseWeight : GenPhase → ℚ
  | .initializing => 5
  | .discovery => 15
  | .selection => 10
  | .researching => 40
  | .writing => 25
  | .publishing => 5
  | .completed => 100
  | .failed => 100

/-- ProgressTrackingService.calculateOverallProgress.  In the research and
writing phases the per-article completion adds 0.7 of its percentage to the
phase base.  (JS divides by articlesTotal; the claims assume it positive.) -/
def calculateOverallProgress (phase : GenPhase) (articlesCompleted articlesTotal : Nat) : ℚ :=
  let baseProgress := phaseWeight phase
  if phase = .researching ∨ phase = .writing then
    let articleProgress : ℚ := ((articlesCompleted : ℚ) / (articlesTotal : ℚ)) * 100
    min 100 (baseProgress + articleProgress * (7/10))
  else
    min 100 baseProgress

/-- JS Math.round: half-up rounding. -/
def jsRound (x : ℚ) : ℤ := ⌊x + 1/2⌋

/-- The estimated-time-remaining computation of getCurrentProgress:
`progressRate = overallProgress / elapsed`; the field is set to
`Math.round((100 - overallProgress) / progressRate / 1000)` when the rate is
positive and left undefined otherwise.  When `elapsed = 0` JS division yields
Infinity (or NaN at 0/0): a positive progress gives rate Infinity, hence a
remaining time of round(0) = 0; progress 0 gives rate NaN, hence undefined. -/
def estimatedTimeRemaining (elapsed overallProgress : ℚ) : Option ℤ :=
  if elapsed = 0 then
    if 0 < overallProgress then some (jsRound 0) else none
  else
    let progressRate := overallProgress / elapsed
    if 0 < progressRate then
      some (jsRound ((100 - overallProgress) / progressRate / 1000))
    else none

/-! ## Registry transition system.  One step is one registry mutation: a
createTask call, one of the internal mutators (any interleaving of concurrent
processTask executions is a sequence of these), the finally-block slot release,
or a retention sweep tick. -/

inductive Step : TaskManagerState → TaskManagerState → Prop where
  | create (st : TaskManagerState) (taskId : String) (request : ResearchRequest) (now : Int) :
      Step st (createTask st taskId request now).1
  | taskStatus (st : TaskManagerState) (taskId : String) (status : TaskStatus)
      (progress : Option ℚ) (now : Int) :
      Step st (updateTaskStatus st taskId status progress now)
  | taskProgress (st : TaskManagerState) (taskId : String) (progress : ℚ) (now : Int) :
      Step st (updateTaskProgress st taskId progress now)
  | agentStatuses (st : TaskManagerState) (taskId : String) (statuses : List AgentStatus)
      (now : Int) :
      Step st (updateAgentStatuses st taskId statuses now)
  | singleAgentStatus (st : TaskManagerState) (taskId agentId : String) (status : AgentState)
      (message research : Option String) (sources : Option (List Source)) (now : Int) :
      Step st (updateSingleAgentStatus st taskId agentId status message research sources now)
  | addAgent (st : TaskManagerState) (taskId : String) (status : AgentStatus) (now : Int) :
      Step st (addAgentStatus st taskId status now)
  | complete (st : TaskManagerState) (taskId : String) (finalReport : String)
      (sources : List Source) (now : Int) :
      Step st (completeTask st taskId finalReport sources now)
  | withError (st : TaskManagerState) (taskId : String) (error : String) (now : Int) :
      Step st (updateTaskWithError st taskId error now)
  | release (st : TaskManagerState) (taskId : String) :
      Step st (releaseSlot st taskId)
  | cleanup (st : TaskManagerState) (now : Int) :
      Step st (cleanupOldTasks st now)

/-- States reachable from the empty registry. -/
inductive Reachable : TaskManagerState → Prop where
  | init : Reachable initialState
  | step {st st' : TaskManagerState} : Reachable st → Step st st' → Reachable st'

/-- Read the state of one agent status entry of one task. -/
def agentStatusIn (st : TaskManagerState) (taskId agentId : String) : Option AgentState :=
  match mapGet st.tasks taskId with
  | none => none
  | some t => (t.agentStatuses.find? (fun s => s.id == agentId)).map (fun s => s.status)

/-! ## Reference form of the deduplication, following the specification words:
keep a source only on the first occurrence of its uri, discard empty uris, and
renumber the kept sources sequentially. -/

/-- Keep the first occurrence of each nonempty uri not yet in `seen`. -/
def specKeepFirst : List Source → List String → List Source
  | [], _ => []
  | src :: rest, seen =>
    if src.uri ≠ "" ∧ ¬ src.uri ∈ seen then
      src :: specKeepFirst rest (src.uri :: seen)
    else
      specKeepFirst rest seen

/-- Renumber a source list with sequential ids starting at `c`. -/
def renumberFrom (c : Nat) : List Source → List Source
  | [] => []
  | src :: rest => { src with id := c } :: renumberFrom (c + 1) rest

/-! ## Helper lemmas: the internal mutators never touch the active-task set -/

lemma activeTasks_updateTaskStatus (st : TaskManagerState) (taskId : String)
    (status : TaskStatus) (progress : Option ℚ) (now : Int) :
    (updateTaskStatus st taskId status progress now).activeTasks = st.activeTasks := rfl

lemma activeTasks_updateTaskProgress (st : TaskManagerState) (taskId : String)
    (progress : ℚ) (now : Int) :
    (updateTaskProgress st taskId progress now).activeTasks = st.activeTasks := rfl

lemma activeTasks_updateAgentStatuses (st : TaskManagerState) (taskId : String)
    (statuses : List AgentStatus) (now : Int) :
    (updateAgentStatuses st taskId statuses now).activeTasks = st.activeTasks := rfl

lemma activeTasks_updateSingleAgentStatus (st : TaskManagerState) (taskId agentId : String)
    (status : AgentState) (message research : Option String)
    (sources : Option (List Source)) (now : Int) :
    (updateSingleAgentStatus st taskId agentId status message research sources now).activeTasks =
      st.activeTasks := rfl

lemma activeTasks_addAgentStatus (st : TaskManagerState) (taskId : String)
    (status : AgentStatus) (now : Int) :
    (addAgentStatus st taskId status now).activeTasks = st.activeTasks := rfl

lemma activeTasks_completeTask (st : TaskManagerState) (taskId : String)
    (finalReport : String) (sources : List Source) (now : Int) :
    (completeTask st taskId finalReport sources now).activeTasks = st.activeTasks := rfl

lemma activeTasks_updateTaskWithError (st : TaskManagerState) (taskId : String)
    (error : String) (now : Int) :
    (updateTaskWithError st taskId error now).activeTasks = st.activeTasks := rfl

lemma activeTasks_resolveAgent (taskId : String) (totalSteps : Nat) (now : Int)
    (acc : TaskManagerState × Nat × List AgentRecord) (cfg : DynamicAgentConfig)
    (index : Nat) (outcome : Except String ResearchResult) :
    (resolveAgent taskId totalSteps now acc cfg index outcome).1.activeTasks =
      acc.1.activeTasks := by
  cases outcome <;> rfl

lemma activeTasks_configResolution (st : TaskManagerState) (taskId : String)
    (request : ResearchRequest) (autoConfig : Except String AutoAgentSetup) (now : Int) :
    (configResolution st taskId request autoConfig now).1.activeTasks = st.activeTasks := by
  unfold configResolution
  split
  · rfl
  split
  · cases autoConfig <;> rfl
  · rfl

lemma foldl_preserving {α β γ : Type} (proj : β → γ) (f : β → α → β)
    (h : ∀ b a, proj (f b a) = proj b) :
    ∀ (l : List α) (b : β), proj (l.foldl f b) = proj b := by
  intro l
  induction l with
  | nil => intro b; rfl
  | cons a l ih =>
    intro b
    rw [List.foldl_cons, ih, h]

lemma activeTasks_markFold (taskId : String) (now : Int)
    (l : List (Nat × DynamicAgentConfig)) (st : TaskManagerState) :
    (l.foldl (fun st p =>
      updateSingleAgentStatus st taskId (agentInternalIdOf p.2.name p.1) .researching
        (some "Starting investigation...") none none now) st).activeTasks =
      st.activeTasks :=
  foldl_preserving (fun s => s.activeTasks) _
    (fun b a => activeTasks_updateSingleAgentStatus b taskId
      (agentInternalIdOf a.2.name a.1) .researching (some "Starting investigation...")
      none none now) l st

lemma activeTasks_resolveFold (taskId : String) (totalSteps : Nat) (now : Int)
    (agentOutcome : Nat → Except String ResearchResult)
    (l : List (Nat × DynamicAgentConfig)) (acc : TaskManagerState × Nat × List AgentRecord) :
    (l.foldl (fun acc p =>
      resolveAgent taskId totalSteps now acc p.2 p.1 (agentOutcome p.1)) acc).1.activeTasks =
      acc.1.activeTasks :=
  foldl_preserving (fun acc => acc.1.activeTasks) _
    (fun b a => activeTasks_resolveAgent taskId totalSteps now b a.2 a.1 (agentOutcome a.1))
    l acc

lemma activeTasks_researchPhase (st : TaskManagerState) (taskId : String)
    (task : ResearchTask) (autoConfig : Except String AutoAgentSetup)
    (agentOutcome : Nat → Except String ResearchResult) (now : Int) :
    (researchPhase st taskId task autoConfig agentOutcome now).1.activeTasks =
      st.activeTasks := by
  unfold researchPhase
  dsimp only
  rw [activeTasks_resolveFold, activeTasks_markFold, activeTasks_updateTaskStatus,
    activeTasks_updateAgentStatuses, activeTasks_configResolution]

lemma activeTasks_synthesisPhase (st : TaskManagerState) (taskId : String)
    (request : ResearchRequest) (agentResults : List AgentRecord)
    (synthInitialized : Bool) (synthOutcome : ApiTextOutcome) (now : Int) :
    (synthesisPhase st taskId request agentResults synthInitialized synthOutcome
      now).activeTasks = st.activeTasks := by
  unfold synthesisPhase
  dsimp only
  split <;> rfl

lemma activeTasks_tryProcess (st : TaskManagerState) (taskId : String)
    (task : ResearchTask) (autoConfig : Except String AutoAgentSetup)
    (agentOutcome : Nat → Except String ResearchResult)
    (synthInitialized : Bool) (synthOutcome : ApiTextOutcome) (now : Int) :
    (tryProcess st taskId task autoConfig agentOutcome synthInitialized synthOutcome
      now).activeTasks = st.activeTasks := by
  unfold tryProcess
  split
  · rfl
  · rw [activeTasks_synthesisPhase, activeTasks_researchPhase]

/-! ## Helper lemmas: reading the task map after mutation -/

lemma find?_map_mapSet (k : String) (v : ResearchTask) :
    ∀ m : List (String × ResearchTask), m.any (fun p => p.1 == k) = true →
      (m.map (fun p => if p.1 == k then (k, v) else p)).find? (fun p => p.1 == k) =
        some (k, v) := by
  intro m
  induction m with
  | nil => intro h; simp at h
  | cons p m ih =>
    intro h
    by_cases hp : p.1 = k
    · simp [List.find?_cons, hp]
    · have hp' : (p.1 == k) = false := by simp [hp]
      have h' : m.any (fun p => p.1 == k) = true := by
        simp only [List.any_cons, hp', Bool.false_or] at h
        exact h
      rw [List.map_cons, if_neg (by simp [hp] : ¬ ((p.1 == k) = true))]
      simp only [List.find?, hp']
      exact ih h'

lemma mapGet_mapSet_self (m : List (String × ResearchTask)) (k : String)
    (v : ResearchTask) : mapGet (mapSet m k v) k = some v := by
  unfold mapSet
  by_cases h : m.any (fun p => p.1 == k)
  · rw [if_pos h]
    unfold mapGet
    rw [find?_map_mapSet k v m h]
  · rw [if_neg h]
    unfold mapGet
    have hnone : m.find? (fun p => p.1 == k) = none := by
      rw [List.find?_eq_none]
      intro x hx
      exact (List.any_eq_false.mp (Bool.eq_false_iff.mpr h)) x hx
    rw [List.find?_append, hnone]
    simp [List.find?]

lemma mapGet_updateTaskProgress_self {st : TaskManagerState} {taskId : String}
    {t : ResearchTask} (progress : ℚ) (now : Int)
    (h : mapGet st.tasks taskId = some t) :
    mapGet (updateTaskProgress st taskId progress now).tasks taskId =
      some { t with progress := min 100 (max 0 progress), updatedAt := now } := by
  unfold updateTaskProgress
  rw [h]
  exact mapGet_mapSet_self _ _ _

lemma isSome_mapGet_updateTaskStatus {st : TaskManagerState} {taskId : String}
    (status : TaskStatus) (progress : Option ℚ) (now : Int)
    (h : (mapGet st.tasks taskId).isSome) :
    (mapGet (updateTaskStatus st taskId status progress now).tasks taskId).isSome := by
  obtain ⟨t, ht⟩ := Option.isSome_iff_exists.mp h
  unfold updateTaskStatus
  rw [ht, mapGet_mapSet_self]
  rfl

lemma isSome_mapGet_updateTaskProgress {st : TaskManagerState} {taskId : String}
    (progress : ℚ) (now : Int) (h : (mapGet st.tasks taskId).isSome) :
    (mapGet (updateTaskProgress st taskId progress now).tasks taskId).isSome := by
  obtain ⟨t, ht⟩ := Option.isSome_iff_exists.mp h
  rw [mapGet_updateTaskProgress_self progress now ht]
  rfl

lemma isSome_mapGet_updateAgentStatuses {st : TaskManagerState} {taskId : String}
    (statuses : List AgentStatus) (now : Int) (h : (mapGet st.tasks taskId).isSome) :
    (mapGet (updateAgentStatuses st taskId statuses now).tasks taskId).isSome := by
  obtain ⟨t, ht⟩ := Option.isSome_iff_exists.mp h
  unfold updateAgentStatuses
  rw [ht, mapGet_mapSet_self]
  rfl

lemma isSome_mapGet_updateSingleAgentStatus {st : TaskManagerState}
    {taskId : String} (agentId : String) (status : AgentState)
    (message research : Option String) (sources : Option (List Source)) (now : Int)
    (h : (mapGet st.tasks taskId).isSome) :
    (mapGet (updateSingleAgentStatus st taskId agentId status message research
      sources now).tasks taskId).isSome := by
  obtain ⟨t, ht⟩ := Option.isSome_iff_exists.mp h
  cases hr : replaceFirst (fun s => s.id == agentId)
      (fun s => { s with status := status, message := message, research := research, sources := sources }) t.agentStatuses with
  | none =>
    unfold updateSingleAgentStatus
    rw [ht]
    dsimp only
    rw [hr]
    exact h
  | some statuses =>
    unfold updateSingleAgentStatus
    rw [ht]
    dsimp only
    rw [hr]
    dsimp only
    rw [mapGet_mapSet_self]
    rfl

lemma isSome_mapGet_addAgentStatus {st : TaskManagerState} {taskId : String}
    (status : AgentStatus) (now : Int) (h : (mapGet st.tasks taskId).isSome) :
    (mapGet (addAgentStatus st taskId status now).tasks taskId).isSome := by
  obtain ⟨t, ht⟩ := Option.isSome_iff_exists.mp h
  unfold addAgentStatus
  rw [ht, mapGet_mapSet_self]
  rfl

lemma mapGet_completeTask_self {st : TaskManagerState} {taskId : String}
    (finalReport : String) (sources : List Source) (now : Int)
    (h : (mapGet st.tasks taskId).isSome) :
    ∃ t, mapGet (completeTask st taskId finalReport sources now).tasks taskId = some t ∧
      t.status = .completed ∧ t.progress = 100 ∧
      t.finalReport = some finalReport ∧ t.sources = some sources := by
  obtain ⟨t0, ht⟩ := Option.isSome_iff_exists.mp h
  unfold completeTask
  rw [ht]
  exact ⟨_, mapGet_mapSet_self _ _ _, rfl, rfl, rfl, rfl⟩

lemma mapGet_updateTaskWithError_self {st : TaskManagerState} {taskId : String}
    (error : String) (now : Int) (h : (mapGet st.tasks taskId).isSome) :
    ∃ t, mapGet (updateTaskWithError st taskId error now).tasks taskId = some t ∧
      t.status = .error ∧ t.error = some error := by
  obtain ⟨t0, ht⟩ := Option.isSome_iff_exists.mp h
  unfold updateTaskWithError
  rw [ht]
  exact ⟨_, mapGet_mapSet_self _ _ _, rfl, rfl⟩

lemma isSome_mapGet_configResolution {st : TaskManagerState} {taskId : String}
    (request : ResearchRequest) (autoConfig : Except String AutoAgentSetup) (now : Int)
    (h : (mapGet st.tasks taskId).isSome) :
    (mapGet (configResolution st taskId request autoConfig now).1.tasks taskId).isSome := by
  unfold configResolution
  split
  · exact h
  split
  · dsimp only
    cases autoConfig with
    | ok setup =>
      exact isSome_mapGet_updateAgentStatuses _ _
        (isSome_mapGet_updateAgentStatuses _ _ (isSome_mapGet_updateTaskStatus _ _ _ h))
    | error e =>
      exact isSome_mapGet_updateAgentStatuses _ _ (isSome_mapGet_updateTaskStatus _ _ _ h)
  · exact h

lemma isSome_mapGet_markFold {taskId : String} (now : Int)
    (l : List (Nat × DynamicAgentConfig)) :
    ∀ st : TaskManagerState, (mapGet st.tasks taskId).isSome →
      (mapGet (l.foldl (fun st p =>
        updateSingleAgentStatus st taskId (agentInternalIdOf p.2.name p.1) .researching
          (some "Starting investigation...") none none now) st).tasks taskId).isSome := by
  induction l with
  | nil => intro st h; exact h
  | cons p l ih =>
    intro st h
    rw [List.foldl_cons]
    exact ih _ (isSome_mapGet_updateSingleAgentStatus _ _ _ _ _ _ h)

lemma isSome_mapGet_resolveAgent {taskId : String} (totalSteps : Nat) (now : Int)
    (acc : TaskManagerState × Nat × List AgentRecord) (cfg : DynamicAgentConfig)
    (index : Nat) (outcome : Except String ResearchResult)
    (h : (mapGet acc.1.tasks taskId).isSome) :
    (mapGet (resolveAgent taskId totalSteps now acc cfg index outcome).1.tasks
      taskId).isSome := by
  cases outcome with
  | ok result =>
    exact isSome_mapGet_updateSingleAgentStatus _ _ _ _ _ _
      (isSome_mapGet_updateTaskProgress _ _ h)
  | error err =>
    exact isSome_mapGet_updateSingleAgentStatus _ _ _ _ _ _
      (isSome_mapGet_updateTaskProgress _ _ h)

lemma isSome_mapGet_resolveFold {taskId : String} (totalSteps : Nat) (now : Int)
    (agentOutcome : Nat → Except String ResearchResult)
    (l : List (Nat × DynamicAgentConfig)) :
    ∀ acc : TaskManagerState × Nat × List AgentRecord,
      (mapGet acc.1.tasks taskId).isSome →
      (mapGet (l.foldl (fun acc p =>
        resolveAgent taskId totalSteps now acc p.2 p.1 (agentOutcome p.1))
        acc).1.tasks taskId).isSome := by
  induction l with
  | nil => intro acc h; exact h
  | cons p l ih =>
    intro acc h
    rw [List.foldl_cons]
    exact ih _ (isSome_mapGet_resolveAgent _ _ _ _ _ _ h)

lemma isSome_mapGet_researchPhase {st : TaskManagerState} {taskId : String}
    (task : ResearchTask) (autoConfig : Except String AutoAgentSetup)
    (agentOutcome : Nat → Except String ResearchResult) (now : Int)
    (h : (mapGet st.tasks taskId).isSome) :
    (mapGet (researchPhase st taskId task autoConfig agentOutcome now).1.tasks
      taskId).isSome := by
  unfold researchPhase
  dsimp only
  exact isSome_mapGet_resolveFold _ _ _ _ _
    (isSome_mapGet_markFold _ _ _
      (isSome_mapGet_updateTaskStatus _ _ _
        (isSome_mapGet_updateAgentStatuses _ _
          (isSome_mapGet_configResolution _ _ _ h))))

/-! ## Helper lemmas: the registry invariant is preserved by every step -/

lemma step_preserves_inv {st st' : TaskManagerState} (hs : Step st st')
    (h : st.activeTasks.length ≤ MAX_CONCURRENT_RESEARCH_TASKS ∧ st.activeTasks.Nodup) :
    st'.activeTasks.length ≤ MAX_CONCURRENT_RESEARCH_TASKS ∧
      st'.activeTasks.Nodup := by
  cases hs with
  | create taskId request now =>
    unfold createTask
    split
    · exact h
    · rename_i hlt
      dsimp only
      unfold setAdd
      split
      · exact h
      · rename_i hmem
        constructor
        · rw [List.length_append, List.length_singleton]
          omega
        · rw [List.nodup_append]
          exact ⟨h.2, List.nodup_singleton _, by simp [List.disjoint_singleton, hmem]⟩
  | taskStatus taskId status progress now =>
    rw [activeTasks_updateTaskStatus]; exact h
  | taskProgress taskId progress now =>
    rw [activeTasks_updateTaskProgress]; exact h
  | agentStatuses taskId statuses now =>
    rw [activeTasks_updateAgentStatuses]; exact h
  | singleAgentStatus taskId agentId status message research sources now =>
    rw [activeTasks_updateSingleAgentStatus]; exact h
  | addAgent taskId status now =>
    rw [activeTasks_addAgentStatus]; exact h
  | complete taskId finalReport sources now =>
    rw [activeTasks_completeTask]; exact h
  | withError taskId error now =>
    rw [activeTasks_updateTaskWithError]; exact h
  | release taskId =>
    exact ⟨le_trans (List.erase_sublist _ _).length_le h.1,
      (List.erase_sublist _ _).nodup h.2⟩
  | cleanup now =>
    exact ⟨le_trans (List.filter_sublist _).length_le h.1,
      (List.filter_sublist _).nodup h.2⟩

lemma reachable_inv {st : TaskManagerState} (h : Reachable st) :
    st.activeTasks.length ≤ MAX_CONCURRENT_RESEARCH_TASKS ∧ st.activeTasks.Nodup := by
  induction h with
  | init => exact ⟨by simp [initialState, MAX_CONCURRENT_RESEARCH_TASKS], List.nodup_nil⟩
  | step _ hs ih => exact step_preserves_inv hs ih

lemma any_eq_false_of_mapGet_none {m : List (String × ResearchTask)} {k : String}
    (h : mapGet m k = none) : m.any (fun p => p.1 == k) = false := by
  unfold mapGet at h
  cases hf : m.find? (fun p => p.1 == k) with
  | some p => rw [hf] at h; exact absurd h (by simp)
  | none =>
    rw [List.any_eq_false]
    intro x hx
    have := List.find?_eq_none.mp hf x hx
    simpa using this

lemma one_le_jsOrNat (a : Option Nat) : 1 ≤ jsOrNat a DEFAULT_AUTO_AGENTS_FALLBACK := by
  cases a with
  | none => simp [jsOrNat, DEFAULT_AUTO_AGENTS_FALLBACK]
  | some n =>
    simp only [jsOrNat, DEFAULT_AUTO_AGENTS_FALLBACK]
    by_cases hn : n = 0
    · rw [if_pos hn]; omega
    · rw [if_neg hn]; omega

/-! ## Helper lemmas: replacing and reading one agent status entry -/

lemma replaceFirst_isSome_iff (p : AgentStatus → Bool) (f : AgentStatus → AgentStatus) :
    ∀ l : List AgentStatus, (replaceFirst p f l).isSome ↔ (l.find? p).isSome := by
  intro l
  induction l with
  | nil => simp [replaceFirst, List.find?]
  | cons s rest ih =>
    by_cases hp : p s
    · simp [replaceFirst, hp, List.find?_cons]
    · simp [replaceFirst, hp, List.find?_cons, ih]

lemma find?_replaceFirst_eq (p : AgentStatus → Bool) (f : AgentStatus → AgentStatus)
    (hpf : ∀ s, p s = true → p (f s) = true) :
    ∀ l l', replaceFirst p f l = some l' →
      ∃ s, l.find? p = some s ∧ l'.find? p = some (f s) := by
  intro l
  induction l with
  | nil => intro l' h; exact absurd h (by simp [replaceFirst])
  | cons s rest ih =>
    intro l' h
    by_cases hp : p s
    · rw [replaceFirst, if_pos hp] at h
      cases h
      exact ⟨s, by rw [List.find?_cons, hp], by rw [List.find?_cons, hpf s hp]⟩
    · rw [replaceFirst, if_neg hp] at h
      cases hrest : replaceFirst p f rest with
      | none => rw [hrest] at h; exact absurd h (by simp)
      | some rest' =>
        rw [hrest] at h
        cases h
        obtain ⟨s0, hf0, hf1⟩ := ih rest' hrest
        have hp' : p s = false := Bool.eq_false_iff.mpr hp
        exact ⟨s0, by rw [List.find?_cons, hp', hf0], by rw [List.find?_cons, hp', hf1]⟩

lemma agentStatusIn_updateSingleAgentStatus {st : TaskManagerState}
    {taskId : String} {t : ResearchTask} (agentId : String) (status : AgentState)
    (message research : Option String) (sources : Option (List Source)) (now : Int)
    (h : mapGet st.tasks taskId = some t)
    (hfind : (t.agentStatuses.find? (fun s => s.id == agentId)).isSome) :
    agentStatusIn (updateSingleAgentStatus st taskId agentId status message research
      sources now) taskId agentId = some status := by
  have hpf : ∀ s : AgentStatus, (s.id == agentId) = true →
      (({ s with status := status, message := message, research := research, sources := sources } : AgentStatus).id == agentId) = true :=
    fun s hs => hs
  have hrep : (replaceFirst (fun s => s.id == agentId)
      (fun s => { s with status := status, message := message, research := research, sources := sources })
      t.agentStatuses).isSome :=
    (replaceFirst_isSome_iff _ _ _).mpr hfind
  obtain ⟨statuses, hr⟩ := Option.isSome_iff_exists.mp hrep
  obtain ⟨s0, _, hf1⟩ := find?_replaceFirst_eq _ _ hpf _ _ hr
  unfold updateSingleAgentStatus agentStatusIn
  rw [h]
  dsimp only
  rw [hr]
  dsimp only
  rw [mapGet_mapSet_self]
  dsimp only
  rw [hf1]
  rfl

lemma agentStatusIn_resolveAgent_ok {taskId : String} (totalSteps : Nat) (now : Int)
    (acc : TaskManagerState × Nat × List AgentRecord) (cfg : DynamicAgentConfig)
    (index : Nat) (r : ResearchResult) {t : ResearchTask}
    (h : mapGet acc.1.tasks taskId = some t)
    (hfind : (t.agentStatuses.find? (fun s =>
      s.id == agentInternalIdOf cfg.name index)).isSome) :
    agentStatusIn (resolveAgent taskId totalSteps now acc cfg index (.ok r)).1 taskId
      (agentInternalIdOf cfg.name index) =
      some (if strStartsWith r.researchSummary "Error:" then .error else .completed) := by
  unfold resolveAgent
  dsimp only
  have h' := mapGet_updateTaskProgress_self
    (10 + (((acc.2.1 + 1 : Nat) : ℚ) / (totalSteps : ℚ)) * 80) now h
  exact agentStatusIn_updateSingleAgentStatus _ _ _ _ _ _ h' hfind

/-! ## Helper lemmas: deduplication -/

lemma dedupSourcesAux_eq (l : List Source) : ∀ (seen : List String) (c : Nat),
    dedupSourcesAux l seen c = renumberFrom c (specKeepFirst l seen) := by
  induction l with
  | nil => intro seen c; rfl
  | cons s rest ih =>
    intro seen c
    unfold dedupSourcesAux specKeepFirst
    by_cases hc : s.uri ≠ "" ∧ ¬ s.uri ∈ seen
    · rw [if_pos hc, if_pos hc]
      unfold renumberFrom
      rw [ih]
    · rw [if_neg hc, if_neg hc]
      exact ih _ _

lemma dedupSources_eq_spec (l : List Source) :
    dedupSources l = renumberFrom 1 (specKeepFirst l []) :=
  dedupSourcesAux_eq l [] 1

lemma length_renumberFrom : ∀ (c : Nat) (l : List Source),
    (renumberFrom c l).length = l.length := by
  intro c l
  induction l generalizing c with
  | nil => rfl
  | cons s rest ih => simp [renumberFrom, ih]

lemma map_id_renumberFrom : ∀ (c : Nat) (l : List Source),
    (renumberFrom c l).map (fun s => s.id) = List.range' c l.length := by
  intro c l
  induction l generalizing c with
  | nil => rfl
  | cons s rest ih => simp [renumberFrom, List.range'_succ, ih]

lemma map_uri_renumberFrom : ∀ (c : Nat) (l : List Source),
    (renumberFrom c l).map (fun s => s.uri) = l.map (fun s => s.uri) := by
  intro c l
  induction l generalizing c with
  | nil => rfl
  | cons s rest ih => simp [renumberFrom, ih]

lemma mem_renumberFrom {s : Source} : ∀ (c : Nat) (l : List Source),
    s ∈ renumberFrom c l → ∃ s0 ∈ l, s.uri = s0.uri ∧ s.title = s0.title := by
  intro c l
  induction l generalizing c with
  | nil => intro h; exact absurd h (by simp [renumberFrom])
  | cons s1 rest ih =>
    intro h
    rw [renumberFrom, List.mem_cons] at h
    cases h with
    | inl h => exact ⟨s1, List.mem_cons_self _ _, by rw [h], by rw [h]⟩
    | inr h =>
      obtain ⟨s0, hs0, he⟩ := ih _ h
      exact ⟨s0, List.mem_cons_of_mem _ hs0, he⟩

lemma length_specKeepFirst_le (l : List Source) : ∀ seen : List String,
    (specKeepFirst l seen).length ≤ l.length := by
  induction l with
  | nil => intro seen; exact le_refl _
  | cons s rest ih =>
    intro seen
    unfold specKeepFirst
    by_cases hc : s.uri ≠ "" ∧ ¬ s.uri ∈ seen
    · rw [if_pos hc]; simpa using ih (s.uri :: seen)
    · rw [if_neg hc]; exact le_trans (ih seen) (by simp)

lemma specKeepFirst_uri_facts (l : List Source) : ∀ seen : List String,
    ((specKeepFirst l seen).map (fun s => s.uri)).Nodup ∧
    (∀ u ∈ (specKeepFirst l seen).map (fun s => s.uri), ¬ u ∈ seen) ∧
    (∀ s ∈ specKeepFirst l seen, s.uri ≠ "") := by
  induction l with
  | nil => intro seen; simp [specKeepFirst]
  | cons s rest ih =>
    intro seen
    unfold specKeepFirst
    by_cases hc : s.uri ≠ "" ∧ ¬ s.uri ∈ seen
    · rw [if_pos hc]
      obtain ⟨hnodup, hnotin, hne⟩ := ih (s.uri :: seen)
      refine ⟨?_, ?_, ?_⟩
      · rw [List.map_cons, List.nodup_cons]
        exact ⟨fun hmem => hnotin _ hmem (List.mem_cons_self _ _), hnodup⟩
      · intro u hu hseen
        rw [List.map_cons, List.mem_cons] at hu
        cases hu with
        | inl he => exact hc.2 (he ▸ hseen)
        | inr he => exact hnotin u he (List.mem_cons_of_mem _ hseen)
      · intro s1 hs1
        rw [List.mem_cons] at hs1
        cases hs1 with
        | inl he => exact he ▸ hc.1
        | inr he => exact hne s1 he
    · rw [if_neg hc]
      exact ih seen

lemma mem_specKeepFirst {s : Source} (l : List Source) : ∀ seen : List String,
    s ∈ specKeepFirst l seen → s ∈ l := by
  induction l with
  | nil => intro seen h; exact absurd h (by simp [specKeepFirst])
  | cons s1 rest ih =>
    intro seen h
    unfold specKeepFirst at h
    by_cases hc : s1.uri ≠ "" ∧ ¬ s1.uri ∈ seen
    · rw [if_pos hc, List.mem_cons] at h
      cases h with
      | inl he => exact he ▸ List.mem_cons_self _ _
      | inr he => exact List.mem_cons_of_mem _ (ih _ he)
    · rw [if_neg hc] at h
      exact List.mem_cons_of_mem _ (ih _ h)

/-! ## Helper lemmas: gathered sources come only from non-error agent results -/

lemma mem_allSourcesOf_aux {s : Source} :
    ∀ (records : List AgentRecord) (acc : List Source),
      s ∈ records.foldl (fun acc r =>
        if strStartsWith r.researchSummary "Error:" then acc else acc ++ r.sources) acc →
      s ∈ acc ∨ ∃ r ∈ records,
        strStartsWith r.researchSummary "Error:" = false ∧ s ∈ r.sources := by
  intro records
  induction records with
  | nil => intro acc h; exact Or.inl h
  | cons r rest ih =>
    intro acc h
    rw [List.foldl_cons] at h
    by_cases hr : strStartsWith r.researchSummary "Error:"
    · rw [if_pos hr] at h
      cases ih acc h with
      | inl h => exact Or.inl h
      | inr h =>
        obtain ⟨r0, hr0, he⟩ := h
        exact Or.inr ⟨r0, List.mem_cons_of_mem _ hr0, he⟩
    · rw [if_neg hr] at h
      cases ih (acc ++ r.sources) h with
      | inl h =>
        rw [List.mem_append] at h
        cases h with
        | inl h => exact Or.inl h
        | inr h =>
          exact Or.inr ⟨r, List.mem_cons_self _ _, Bool.eq_false_iff.mpr hr, h⟩
      | inr h =>
        obtain ⟨r0, hr0, he⟩ := h
        exact Or.inr ⟨r0, List.mem_cons_of_mem _ hr0, he⟩

lemma mem_allSourcesOf {records : List AgentRecord} {s : Source}
    (h : s ∈ allSourcesOf records) :
    ∃ r ∈ records, strStartsWith r.researchSummary "Error:" = false ∧ s ∈ r.sources := by
  cases mem_allSourcesOf_aux records [] h with
  | inl h => exact absurd h (by simp)
  | inr h => exact h

/-! ## Helper lemmas: the citation scanner preserves a bracket-free prefix -/

lemma scanCitations_cons_not_bracket (sources : List Source) (fuel : Nat) (c : Char)
    (rest : List Char) (hc : ¬ c = '[') :
    scanCitations sources (fuel + 1) (c :: rest) = c :: scanCitations sources fuel rest := by
  simp only [scanCitations]
  rw [if_neg hc]

lemma scanCitations_no_bracket_pre (sources : List Source) :
    ∀ (pre l : List Char), (∀ c ∈ pre, ¬ c = '[') →
      scanCitations sources (pre.length + l.length) (pre ++ l) =
        pre ++ scanCitations sources l.length l := by
  intro pre
  induction pre with
  | nil => intro l h; simp
  | cons c pre ih =>
    intro l h
    have hc : ¬ c = '[' := h c (List.mem_cons_self _ _)
    have hlen : (c :: pre).length + l.length = (pre.length + l.length) + 1 := by
      rw [List.length_cons]
      omega
    rw [hlen, List.cons_append, scanCitations_cons_not_bracket sources _ c _ hc]
    rw [ih l (fun c1 hc1 => h c1 (List.mem_cons_of_mem _ hc1))]
    rfl

lemma rewriteCitations_errorReport (sources : List Source) (tail0 : String) :
    ∃ tail : String,
      rewriteCitations ("Error: Could not synthesize the final report. " ++ tail0) sources =
        "Error: Could not synthesize the final report. " ++ tail := by
  refine ⟨String.mk (scanCitations sources tail0.data.length tail0.data), ?_⟩
  unfold rewriteCitations
  rw [String.data_append, List.length_append]
  rw [scanCitations_no_bracket_pre sources _ _ (by decide)]
  rfl

lemma synthErrorReport_decomp (errorMessage originalQuery : String)
    (responseType : ResponseType) (includeCitations : Bool) (agentSummaries : String) :
    ∃ tail : String,
      synthErrorReport errorMessage originalQuery responseType includeCitations
        agentSummaries = "Error: Could not synthesize the final report. " ++ tail := by
  exact ⟨_, rfl⟩

/-! ## Helper lemmas: the two failure modes of the synthesis phase -/

lemma errorReport_decomp_processed (request : ResearchRequest)
    (finalUniqueSources : List Source) (errorMessage agentSummaries : String) :
    ∃ tail : String,
      (if request.includeCitations.getD true = true ∧ 0 < finalUniqueSources.length then
        rewriteCitations (synthErrorReport errorMessage request.researchTopic
          (request.responseType.getD .Report) (request.includeCitations.getD true)
          agentSummaries) finalUniqueSources
      else synthErrorReport errorMessage request.researchTopic
        (request.responseType.getD .Report) (request.includeCitations.getD true)
        agentSummaries) =
      "Error: Could not synthesize the final report. " ++ tail := by
  obtain ⟨tail0, h0⟩ := synthErrorReport_decomp errorMessage request.researchTopic
    (request.responseType.getD .Report) (request.includeCitations.getD true) agentSummaries
  split
  · rw [h0]
    exact rewriteCitations_errorReport finalUniqueSources tail0
  · exact ⟨tail0, h0⟩

lemma synthesisPhase_rejected {st : TaskManagerState} {taskId : String}
    (request : ResearchRequest) (agentResults : List AgentRecord) (msg : String)
    (now : Int) (h : (mapGet st.tasks taskId).isSome) :
    ∃ t, mapGet (synthesisPhase st taskId request agentResults true (.rejected msg)
        now).tasks taskId = some t ∧
      t.status = .completed ∧ t.progress = 100 ∧
      ∃ tail, t.finalReport =
        some ("Error: Could not synthesize the final report. " ++ tail) := by
  unfold synthesisPhase
  dsimp only [synthesizeReport]
  rw [if_neg (by simp)]
  dsimp only
  have h2 : (mapGet (addAgentStatus (updateTaskStatus st taskId .synthesizing (some 90) now)
      taskId { id := "synthesis-engine", name := "Synthesis Engine", status := .synthesizing, message := some "Compiling final report..." }
      now).tasks taskId).isSome :=
    isSome_mapGet_addAgentStatus _ _ (isSome_mapGet_updateTaskStatus _ _ _ h)
  have h3 := isSome_mapGet_updateSingleAgentStatus "synthesis-engine" .completed
    (some "Report generated.") none none now h2
  obtain ⟨t, ht, hstatus, hprog, hreport, _⟩ := mapGet_completeTask_self _ _ now h3
  refine ⟨t, ht, hstatus, hprog, ?_⟩
  rw [hreport]
  obtain ⟨tail, htail⟩ := errorReport_decomp_processed request
    (dedupSources (allSourcesOf agentResults)) msg
    (agentSummariesText ((successfulResultsOf agentResults).map
      (fun r => (r.agentName, r.researchSummary))))
  exact ⟨tail, by rw [htail]⟩

lemma synthesisPhase_not_initialized {st : TaskManagerState} {taskId : String}
    (request : ResearchRequest) (agentResults : List AgentRecord)
    (synthOutcome : ApiTextOutcome) (now : Int) (h : (mapGet st.tasks taskId).isSome) :
    ∃ t, mapGet (synthesisPhase st taskId request agentResults false synthOutcome
        now).tasks taskId = some t ∧
      t.status = .error ∧ t.error = some notInitializedMessage := by
  unfold synthesisPhase
  dsimp only [synthesizeReport]
  rw [if_pos (by simp)]
  have h2 : (mapGet (addAgentStatus (updateTaskStatus st taskId .synthesizing (some 90) now)
      taskId { id := "synthesis-engine", name := "Synthesis Engine", status := .synthesizing, message := some "Compiling final report..." }
      now).tasks taskId).isSome :=
    isSome_mapGet_addAgentStatus _ _ (isSome_mapGet_updateTaskStatus _ _ _ h)
  exact mapGet_updateTaskWithError_self notInitializedMessage now h2

/-! ## Claim theorems -/

/-- C1: For every registry state whose active-task count is strictly below the
ceiling MAX_CONCURRENT_RESEARCH_TASKS = 10, createTask succeeds for a fresh
task id: it returns the id, registers a fresh task record in state started
with progress 0 (appended to the task map), and the active-task count grows by
exactly one.  When the active-task count already equals the ceiling, createTask
always throws the capacity-exceeded error and the whole registry state (task
map and active set) is unchanged. -/
theorem createTask_admission (st : TaskManagerState) (taskId : String)
    (request : ResearchRequest) (now : Int)
    (hfreshActive : ¬ taskId ∈ st.activeTasks)
    (hfreshTask : mapGet st.tasks taskId = none) :
    (st.activeTasks.length < MAX_CONCURRENT_RESEARCH_TASKS →
      (createTask st taskId request now).2 = .ok taskId ∧
      mapGet (createTask st taskId request now).1.tasks taskId =
        some { id := taskId, request := request, status := .started, progress := 0,
               agentStatuses := [], createdAt := now, updatedAt := now } ∧
      (createTask st taskId request now).1.tasks =
        st.tasks ++ [(taskId,
          { id := taskId, request := request, status := .started, progress := 0,
            agentStatuses := [], createdAt := now, updatedAt := now })] ∧
      (createTask st taskId request now).1.activeTasks.length =
        st.activeTasks.length + 1) ∧
    (st.activeTasks.length = MAX_CONCURRENT_RESEARCH_TASKS →
      (createTask st taskId request now).2 = .error capacityErrorMessage ∧
      (createTask st taskId request now).1 = st) := by
  constructor
  · intro hlt
    have hcond : ¬ MAX_CONCURRENT_RESEARCH_TASKS ≤ st.activeTasks.length := by omega
    unfold createTask
    rw [if_neg hcond]
    dsimp only
    refine ⟨rfl, mapGet_mapSet_self _ _ _, ?_, ?_⟩
    · unfold mapSet
      rw [if_neg (by rw [any_eq_false_of_mapGet_none hfreshTask]; simp)]
    · unfold setAdd
      rw [if_neg hfreshActive, List.length_append, List.length_singleton]
  · intro heq
    have hcond : MAX_CONCURRENT_RESEARCH_TASKS ≤ st.activeTasks.length := le_of_eq heq.symm
    unfold createTask
    rw [if_pos hcond]
    exact ⟨rfl, rfl⟩

theorem createTask_admission_witness :
    (createTask initialState "w1" { researchTopic := "topic" } 0).2 = .ok "w1" ∧
    (createTask { tasks := [], activeTasks := ["a1", "a2", "a3", "a4", "a5", "a6", "a7", "a8", "a9", "a10"] }
      "w11" { researchTopic := "topic" } 0).2 = .error capacityErrorMessage := by
  constructor
  · exact ((createTask_admission initialState "w1" { researchTopic := "topic" } 0
      (by decide) (by decide)).1 (by decide)).1
  · exact ((createTask_admission
      { tasks := [], activeTasks := ["a1", "a2", "a3", "a4", "a5", "a6", "a7", "a8", "a9", "a10"] }
      "w11" { researchTopic := "topic" } 0 (by decide) (by decide)).2 (by decide)).1

/-- C2: In every reachable registry state the number of tasks occupying a
concurrency slot never exceeds the ceiling (and the active set holds no
duplicates); and for every submitted task (present in the task map), every
execution path of processTask — normal completion, task failure, or a thrown
exception absorbed by the catch — ends with the finally block releasing the
slot of exactly that task: the resulting active set is the original with the
task id erased, and the id is no longer active. -/
theorem slot_ceiling_and_release :
    (∀ st : TaskManagerState, Reachable st →
      st.activeTasks.length ≤ MAX_CONCURRENT_RESEARCH_TASKS) ∧
    (∀ (st : TaskManagerState) (taskId : String)
      (autoConfig : Except String AutoAgentSetup)
      (agentOutcome : Nat → Except String ResearchResult)
      (synthInitialized : Bool) (synthOutcome : ApiTextOutcome) (now : Int),
      Reachable st → (mapGet st.tasks taskId).isSome →
      (processTask st taskId autoConfig agentOutcome synthInitialized synthOutcome
        now).1.activeTasks = st.activeTasks.erase taskId ∧
      ¬ taskId ∈ (processTask st taskId autoConfig agentOutcome synthInitialized
        synthOutcome now).1.activeTasks) := by
  constructor
  · exact fun st h => (reachable_inv h).1
  · intro st taskId autoConfig agentOutcome synthInitialized synthOutcome now hreach hsome
    obtain ⟨task, htask⟩ := Option.isSome_iff_exists.mp hsome
    have hrw : (processTask st taskId autoConfig agentOutcome synthInitialized
        synthOutcome now).1.activeTasks = st.activeTasks.erase taskId := by
      unfold processTask
      rw [htask]
      dsimp only
      unfold releaseSlot
      dsimp only
      rw [activeTasks_tryProcess]
    refine ⟨hrw, ?_⟩
    rw [hrw]
    intro hmem
    exact ((List.Nodup.mem_erase_iff (reachable_inv hreach).2).mp hmem).1 rfl

theorem slot_ceiling_and_release_witness :
    (createTask initialState "t1" { researchTopic := "X" } 0).1.activeTasks.length ≤
      MAX_CONCURRENT_RESEARCH_TASKS ∧
    (processTask (createTask initialState "t1" { researchTopic := "X" } 0).1 "t1"
      (.error "e") (fun _ => .error "agent failed") true (.resolved (some "report"))
      0).1.activeTasks = [] := by
  constructor
  · exact slot_ceiling_and_release.1 _
      (Reachable.step Reachable.init (Step.create initialState "t1" { researchTopic := "X" } 0))
  · have h := (slot_ceiling_and_release.2
      (createTask initialState "t1" { researchTopic := "X" } 0).1 "t1"
      (.error "e") (fun _ => .error "agent failed") true (.resolved (some "report")) 0
      (Reachable.step Reachable.init (Step.create initialState "t1" { researchTopic := "X" } 0))
      (by decide)).1
    rw [h]
    decide

/-- C3: In a manual-mode submission with 3 agents where agent 2 (index 1)
crashes and agents 1 and 3 succeed with overlapping source URIs, the task still
reaches the terminal state completed, agent 2 ends in state error, and the
final source list is exactly the deduplicated union of the URIs reported by
agents 1 and 3 (ids 1..3 in first-seen order) — the failure of one agent never
rejects or cancels the rest of the batch. -/
theorem manual_scenario_partial_failure :
    ((mapGet (processTask (createTask initialState "t1"
        { researchTopic := "X", numAgents := some 3, autoAgents := some false, goDeeper := some false } 0).1
        "t1" (.error "unused")
        (fun i => if i = 0 then
            .ok { researchSummary := "Summary one", sources := [{ id := 1, uri := "https://a", title := "A" }, { id := 2, uri := "https://b", title := "B" }] }
          else if i = 1 then .error "Agent crashed"
          else .ok { researchSummary := "Summary three", sources := [{ id := 1, uri := "https://b", title := "B2" }, { id := 2, uri := "https://c", title := "C" }] })
        true (.resolved (some "All good.")) 5).1.tasks "t1").map (fun t =>
      (t.status, t.sources))) =
    some (.completed,
      some [{ id := 1, uri := "https://a", title := "A" },
        { id := 2, uri := "https://b", title := "B" },
        { id := 3, uri := "https://c", title := "C" }]) ∧
    ((mapGet (processTask (createTask initialState "t1"
        { researchTopic := "X", numAgents := some 3, autoAgents := some false, goDeeper := some false } 0).1
        "t1" (.error "unused")
        (fun i => if i = 0 then
            .ok { researchSummary := "Summary one", sources := [{ id := 1, uri := "https://a", title := "A" }, { id := 2, uri := "https://b", title := "B" }] }
          else if i = 1 then .error "Agent crashed"
          else .ok { researchSummary := "Summary three", sources := [{ id := 1, uri := "https://b", title := "B2" }, { id := 2, uri := "https://c", title := "C" }] })
        true (.resolved (some "All good.")) 5).1.tasks "t1").map (fun t =>
      (t.error, t.agentStatuses.map (fun s => (s.id, s.status))))) =
    some (none,
      [("Analyst-Agent-0", .completed), ("Critical-Agent-1", .error),
        ("Innovator-Agent-2", .completed), ("synthesis-engine", .completed)]) := by
  constructor
  · decide
  · decide

/-- C4 counterexample: a run in which the synthesis stage fails (the
synthesizer API call rejects with "Service unavailable") yet the task ends in
state completed with no error recorded — refuting the claim that a synthesis
failure always transitions the task to the terminal state error. -/
theorem synthesis_failure_counterexample :
    ((mapGet (processTask (createTask initialState "t1"
        { researchTopic := "X", numAgents := some 1, autoAgents := some false, goDeeper := some false } 0).1
        "t1" (.error "unused") (fun _ => .ok { researchSummary := "Summary", sources := [] })
        true (.rejected "Service unavailable") 5).1.tasks "t1").map (fun t =>
      (t.status, t.error))) = some (.completed, none) := by
  decide

/-- C4 amended: a failure of the synthesis API call is caught inside
synthesizeReport and resolved into an Error:-prefixed report string, so the
task transitions to completed (progress 100) with that error report attached as
its final report and no error status; the task transitions to error with the
failure detail attached only when the synthesis stage throws, which happens
exactly when the Gemini service is not initialized. -/
theorem synthesis_failure_behavior :
    (∀ (st : TaskManagerState) (taskId : String) (task : ResearchTask)
      (autoConfig : Except String AutoAgentSetup)
      (agentOutcome : Nat → Except String ResearchResult) (msg : String) (now : Int),
      mapGet st.tasks taskId = some task →
      ¬ strTrim task.request.researchTopic = "" →
      ∃ t, mapGet (processTask st taskId autoConfig agentOutcome true (.rejected msg)
          now).1.tasks taskId = some t ∧
        t.status = .completed ∧ t.progress = 100 ∧
        ∃ tail, t.finalReport =
          some ("Error: Could not synthesize the final report. " ++ tail)) ∧
    (∀ (st : TaskManagerState) (taskId : String) (task : ResearchTask)
      (autoConfig : Except String AutoAgentSetup)
      (agentOutcome : Nat → Except String ResearchResult)
      (synthOutcome : ApiTextOutcome) (now : Int),
      mapGet st.tasks taskId = some task →
      ¬ strTrim task.request.researchTopic = "" →
      ∃ t, mapGet (processTask st taskId autoConfig agentOutcome false synthOutcome
          now).1.tasks taskId = some t ∧
        t.status = .error ∧ t.error = some notInitializedMessage) := by
  constructor
  · intro st taskId task autoConfig agentOutcome msg now htask htrim
    unfold processTask
    rw [htask]
    dsimp only
    unfold releaseSlot
    dsimp only
    unfold tryProcess
    rw [if_neg htrim]
    dsimp only
    exact synthesisPhase_rejected task.request _ msg now
      (isSome_mapGet_researchPhase task autoConfig agentOutcome now
        (by rw [htask]; rfl))
  · intro st taskId task autoConfig agentOutcome synthOutcome now htask htrim
    unfold processTask
    rw [htask]
    dsimp only
    unfold releaseSlot
    dsimp only
    unfold tryProcess
    rw [if_neg htrim]
    dsimp only
    exact synthesisPhase_not_initialized task.request _ synthOutcome now
      (isSome_mapGet_researchPhase task autoConfig agentOutcome now
        (by rw [htask]; rfl))

theorem synthesis_failure_behavior_witness :
    (∃ t, mapGet (processTask (createTask initialState "t1" { researchTopic := "X" } 0).1
        "t1" (.error "unused") (fun _ => .ok { researchSummary := "S", sources := [] })
        true (.rejected "boom") 5).1.tasks "t1" = some t ∧
      t.status = .completed ∧ t.progress = 100 ∧
      ∃ tail, t.finalReport =
        some ("Error: Could not synthesize the final report. " ++ tail)) ∧
    (∃ t, mapGet (processTask (createTask initialState "t1" { researchTopic := "X" } 0).1
        "t1" (.error "unused") (fun _ => .ok { researchSummary := "S", sources := [] })
        false (.rejected "boom") 5).1.tasks "t1" = some t ∧
      t.status = .error ∧ t.error = some notInitializedMessage) := by
  constructor
  · exact synthesis_failure_behavior.1 _ "t1"
      { id := "t1", request := { researchTopic := "X" }, status := .started, progress := 0,
        agentStatuses := [], createdAt := 0, updatedAt := 0 }
      (.error "unused") (fun _ => .ok { researchSummary := "S", sources := [] }) "boom" 5
      (by decide) (by decide)
  · exact synthesis_failure_behavior.2 _ "t1"
      { id := "t1", request := { researchTopic := "X" }, status := .started, progress := 0,
        agentStatuses := [], createdAt := 0, updatedAt := 0 }
      (.error "unused") (fun _ => .ok { researchSummary := "S", sources := [] })
      (.rejected "boom") 5 (by decide) (by decide)

/-- C5: The source deduplication keeps a source only on the first occurrence of
its URI, discards every source with an empty or missing URI without assigning
it an id, and renumbers the kept sources with sequential integer ids 1..N in
first-seen order: the result equals the keep-first-by-URI reference filtered
list renumbered from 1, its ids are the dense sequence 1..N, N is at most the
input length, no two kept sources share a URI and every kept URI is nonempty. -/
theorem dedup_spec (l : List Source) :
    dedupSources l = renumberFrom 1 (specKeepFirst l []) ∧
    (dedupSources l).map (fun s => s.id) = List.range' 1 (dedupSources l).length ∧
    (dedupSources l).length ≤ l.length ∧
    ((dedupSources l).map (fun s => s.uri)).Nodup ∧
    ∀ s ∈ dedupSources l, s.uri ≠ "" := by
  have heq := dedupSources_eq_spec l
  refine ⟨heq, ?_, ?_, ?_, ?_⟩
  · rw [heq, map_id_renumberFrom, length_renumberFrom]
  · rw [heq, length_renumberFrom]
    exact length_specKeepFirst_le l []
  · rw [heq, map_uri_renumberFrom]
    exact (specKeepFirst_uri_facts l []).1
  · intro s hs
    rw [heq] at hs
    obtain ⟨s0, hs0, huri, _⟩ := mem_renumberFrom _ _ hs
    rw [huri]
    exact (specKeepFirst_uri_facts l []).2.2 s0 hs0

/-- C6 counterexample: at the researching to writing phase boundary the
reported overall progress decreases — with no articles completed the
researching phase reports 40 while the writing phase entered next reports only
25 — refuting the claim that the base percentage of a newly entered phase is
always at least the maximum progress attainable in the prior phase. -/
theorem progress_phase_drop_counterexample :
    calculateOverallProgress .writing 0 5 < calculateOverallProgress .researching 0 5 := by
  norm_num [calculateOverallProgress, phaseWeight]

/-- C6 amended: within a single phase the reported overall progress is
monotonically non-decreasing as completed articles increase, but the base
percentage of a newly entered phase is NOT always at least the prior phase
maximum: entering writing from researching lowers progress by 15 points at any
equal article count, and entering selection from discovery lowers it from 15
to 10 — so observed progress can decrease across a phase change. -/
theorem progress_monotonicity_within_phase :
    (∀ (phase : GenPhase) (c1 c2 total : Nat), 0 < total → c1 ≤ c2 →
      calculateOverallProgress phase c1 total ≤ calculateOverallProgress phase c2 total) ∧
    (∀ (c total : Nat), 0 < total → c ≤ total →
      calculateOverallProgress .writing c total <
        calculateOverallProgress .researching c total) ∧
    calculateOverallProgress .selection 0 1 < calculateOverallProgress .discovery 0 1 := by
  refine ⟨?_, ?_, ?_⟩
  · intro phase c1 c2 total ht hc
    unfold calculateOverallProgress
    by_cases hph : phase = GenPhase.researching ∨ phase = GenPhase.writing
    · rw [if_pos hph, if_pos hph]
      dsimp only
      have htq : (0:ℚ) < (total : ℚ) := by exact_mod_cast ht
      have hcq : (c1:ℚ) ≤ (c2:ℚ) := by exact_mod_cast hc
      apply min_le_min (le_refl _)
      gcongr
    · rw [if_neg hph, if_neg hph]
  · intro c total ht hc
    unfold calculateOverallProgress
    rw [if_pos (Or.inr rfl), if_pos (Or.inl rfl)]
    dsimp only [phaseWeight]
    have htq : (0:ℚ) < (total : ℚ) := by exact_mod_cast ht
    have ha0 : 0 ≤ (c:ℚ) / (total:ℚ) * 100 := by positivity
    have ha100 : (c:ℚ) / (total:ℚ) * 100 ≤ 100 := by
      have h1 : (c:ℚ) / (total:ℚ) ≤ 1 :=
        div_le_one_of_le₀ (by exact_mod_cast hc) (le_of_lt htq)
      nlinarith
    rw [min_eq_right (by linarith : 25 + (c:ℚ) / (total:ℚ) * 100 * (7/10) ≤ 100)]
    apply lt_min
    · linarith
    · linarith
  · norm_num [calculateOverallProgress, phaseWeight]

theorem progress_monotonicity_within_phase_witness :
    calculateOverallProgress .researching 1 4 ≤ calculateOverallProgress .researching 2 4 ∧
    calculateOverallProgress .writing 0 5 < calculateOverallProgress .researching 0 5 := by
  constructor
  · exact progress_monotonicity_within_phase.1 .researching 1 2 4 (by decide) (by decide)
  · exact progress_monotonicity_within_phase.2.1 0 5 (by decide) (by decide)

/-- C7: For every task the configured agent count is at least 1 and at most the
mode-specific maximum.  In deep mode exactly MAX_AGENTS_GO_DEEPER agents are
created, each with temperature pinned to the maximum GO_DEEPER_AGENT_TEMPERATURE.
In manual mode the requested count is clamped into [1, MAX_AGENTS_MANUAL] and
the agents are drawn cyclically from the fixed profile table.  In auto mode a
failed configuration call falls back (without raising) to exactly
DEFAULT_AUTO_AGENTS_FALLBACK agents taken from the fixed profile table. -/
theorem agent_configuration_bounds (st : TaskManagerState) (taskId : String)
    (request : ResearchRequest) (autoConfig : Except String AutoAgentSetup) (now : Int) :
    (request.goDeeper.getD false = true →
      (configResolution st taskId request autoConfig now).2.1 = MAX_AGENTS_GO_DEEPER ∧
      (configResolution st taskId request autoConfig now).2.2.length = MAX_AGENTS_GO_DEEPER ∧
      ∀ cfg ∈ (configResolution st taskId request autoConfig now).2.2,
        cfg.temperature = GO_DEEPER_AGENT_TEMPERATURE) ∧
    (request.goDeeper.getD false = false → request.autoAgents.getD false = false →
      1 ≤ (configResolution st taskId request autoConfig now).2.1 ∧
      (configResolution st taskId request autoConfig now).2.1 ≤ MAX_AGENTS_MANUAL ∧
      (configResolution st taskId request autoConfig now).2.2 =
        (List.range (configResolution st taskId request autoConfig now).2.1).map (fun i =>
          profileToDynamic ((AGENT_PROFILES.get? (i % AGENT_PROFILES.length)).getD
            defaultProfile))) ∧
    (request.goDeeper.getD false = false → request.autoAgents.getD false = true →
      ∀ e, autoConfig = .error e →
      (configResolution st taskId request autoConfig now).2.1 =
        DEFAULT_AUTO_AGENTS_FALLBACK ∧
      (configResolution st taskId request autoConfig now).2.2 =
        (AGENT_PROFILES.take DEFAULT_AUTO_AGENTS_FALLBACK).map profileToDynamic) := by
  refine ⟨?_, ?_, ?_⟩
  · intro hdeep
    unfold configResolution
    rw [if_pos hdeep]
    refine ⟨rfl, by simp, ?_⟩
    intro cfg hcfg
    rw [List.mem_map] at hcfg
    obtain ⟨i, _, hi⟩ := hcfg
    rw [← hi]
  · intro hdeep hauto
    unfold configResolution
    rw [if_neg (by simp [hdeep]), if_neg (by simp [hauto])]
    dsimp only
    refine ⟨le_min (one_le_jsOrNat request.numAgents) (by norm_num [MAX_AGENTS_MANUAL]),
      min_le_right _ _, rfl⟩
  · intro hdeep hauto e he
    unfold configResolution
    rw [if_neg (by simp [hdeep]), if_pos (by simp [hauto]), he]
    exact ⟨rfl, rfl⟩

theorem agent_configuration_bounds_witness :
    (configResolution initialState "t1"
      { researchTopic := "X", goDeeper := some true } (.error "x") 0).2.1 =
        MAX_AGENTS_GO_DEEPER ∧
    1 ≤ (configResolution initialState "t1"
      { researchTopic := "X", numAgents := some 5, autoAgents := some false,
        goDeeper := some false } (.error "x") 0).2.1 ∧
    (configResolution initialState "t1"
      { researchTopic := "X", autoAgents := some true, goDeeper := some false }
      (.error "config failed") 0).2.1 = DEFAULT_AUTO_AGENTS_FALLBACK := by
  refine ⟨?_, ?_, ?_⟩
  · exact ((agent_configuration_bounds initialState "t1"
      { researchTopic := "X", goDeeper := some true } (.error "x") 0).1 (by decide)).1
  · exact ((agent_configuration_bounds initialState "t1"
      { researchTopic := "X", numAgents := some 5, autoAgents := some false,
        goDeeper := some false } (.error "x") 0).2.1 (by decide) (by decide)).1
  · exact ((agent_configuration_bounds initialState "t1"
      { researchTopic := "X", autoAgents := some true, goDeeper := some false }
      (.error "config failed") 0).2.2 (by decide) (by decide) "config failed" rfl).1

/-- C8: On a sweep tick the retention cleanup removes exactly the tasks that
are in a terminal state (completed or error) and whose last-update timestamp is
strictly older than the retention window: the remaining task map is the
original filtered to the tasks that are non-terminal or still within the
window, each remaining entry unchanged and in order. -/
theorem cleanup_retention (st : TaskManagerState) (now : Int)
    (hkeys : (st.tasks.map (fun p => p.1)).Nodup) :
    (cleanupOldTasks st now).tasks = st.tasks.filter (fun p =>
      decide (¬ ((p.2.status = .completed ∨ p.2.status = .error) ∧
        COMPLETED_TASK_RETENTION_MS < now - p.2.updatedAt))) := by
  unfold cleanupOldTasks
  dsimp only
  apply List.filter_congr
  intro p hp
  rw [decide_eq_decide]
  constructor
  · intro hnot hcond
    apply hnot
    rw [List.mem_map]
    exact ⟨p, List.mem_filter.mpr ⟨hp, decide_eq_true hcond⟩, rfl⟩
  · intro hnot hmem
    apply hnot
    rw [List.mem_map] at hmem
    obtain ⟨q, hq, hqk⟩ := hmem
    have hq' := List.mem_filter.mp hq
    have hqcond := of_decide_eq_true hq'.2
    have : q = p := List.inj_on_of_nodup_map hkeys hq'.1 hp hqk
    exact this ▸ hqcond

theorem cleanup_retention_witness :
    (cleanupOldTasks
      { tasks := [
          ("old-done", { id := "old-done", request := { researchTopic := "X" }, status := .completed, progress := 100, agentStatuses := [], createdAt := 0, updatedAt := 0 }),
          ("old-running", { id := "old-running", request := { researchTopic := "X" }, status := .researching, progress := 50, agentStatuses := [], createdAt := 0, updatedAt := 0 }),
          ("fresh-done", { id := "fresh-done", request := { researchTopic := "X" }, status := .completed, progress := 100, agentStatuses := [], createdAt := 0, updatedAt := COMPLETED_TASK_RETENTION_MS + 1 })],
        activeTasks := [] }
      (COMPLETED_TASK_RETENTION_MS + 1)).tasks = [
      ("old-running", { id := "old-running", request := { researchTopic := "X" }, status := .researching, progress := 50, agentStatuses := [], createdAt := 0, updatedAt := 0 }),
      ("fresh-done", { id := "fresh-done", request := { researchTopic := "X" }, status := .completed, progress := 100, agentStatuses := [], createdAt := 0, updatedAt := COMPLETED_TASK_RETENTION_MS + 1 })] := by
  rw [cleanup_retention _ _ (by decide)]
  decide

/-- C9: The estimated-time-remaining value is rate-based: for a positive
elapsed time it equals the rounded value of elapsed divided by the current
progress, multiplied by the remaining percentage and converted to seconds
(divided by 1000), and the field is omitted (none) exactly when the progress
is zero. -/
theorem time_remaining_formula (elapsed overallProgress : ℚ)
    (hel : 0 < elapsed) (hp : 0 ≤ overallProgress) :
    estimatedTimeRemaining elapsed overallProgress =
      if overallProgress = 0 then none
      else some (jsRound (elapsed / overallProgress * (100 - overallProgress) / 1000)) := by
  unfold estimatedTimeRemaining
  rw [if_neg (ne_of_gt hel)]
  dsimp only
  by_cases h0 : overallProgress = 0
  · rw [if_pos h0]
    rw [if_neg (by rw [h0]; simp : ¬ (0:ℚ) < overallProgress / elapsed)]
  · have hp' : (0:ℚ) < overallProgress := lt_of_le_of_ne hp (Ne.symm h0)
    rw [if_neg h0, if_pos (div_pos hp' hel)]
    congr 2
    field_simp
    ring

theorem time_remaining_formula_witness :
    estimatedTimeRemaining 1000 50 = some 1 ∧ estimatedTimeRemaining 1000 0 = none := by
  constructor
  · rw [time_remaining_formula 1000 50 (by norm_num) (by norm_num)]
    norm_num [jsRound]
  · rw [time_remaining_formula 1000 0 (by norm_num) (by norm_num)]
    norm_num

/-- C10: An agent outcome is classified as a failure if and only if its
research-summary string begins with the prefix Error: — even when the agent
call returned normally, a genuine summary starting with Error: sets that agent
status to error (and a summary without the prefix sets it to completed).
Consequently every source gathered for deduplication, and every entry of the
final deduplicated source list, stems from an agent record whose summary does
not carry the prefix, and a record with the prefix never enters the
successful-results list passed to the synthesizer. -/
theorem error_classification :
    (∀ (taskId : String) (totalSteps : Nat) (now : Int)
      (acc : TaskManagerState × Nat × List AgentRecord) (cfg : DynamicAgentConfig)
      (index : Nat) (r : ResearchResult) (t : ResearchTask),
      mapGet acc.1.tasks taskId = some t →
      (t.agentStatuses.find? (fun s =>
        s.id == agentInternalIdOf cfg.name index)).isSome →
      agentStatusIn (resolveAgent taskId totalSteps now acc cfg index (.ok r)).1 taskId
        (agentInternalIdOf cfg.name index) =
        some (if strStartsWith r.researchSummary "Error:" then .error else .completed)) ∧
    (∀ (records : List AgentRecord) (s : Source), s ∈ allSourcesOf records →
      ∃ r ∈ records, strStartsWith r.researchSummary "Error:" = false ∧
        s ∈ r.sources) ∧
    (∀ (records : List AgentRecord) (s : Source),
      s ∈ dedupSources (allSourcesOf records) →
      ∃ r ∈ records, strStartsWith r.researchSummary "Error:" = false ∧
        ∃ s0 ∈ r.sources, s.uri = s0.uri ∧ s.title = s0.title) ∧
    (∀ (records : List AgentRecord) (r : AgentRecord), r ∈ records →
      strStartsWith r.researchSummary "Error:" = true →
      ¬ r ∈ successfulResultsOf records) := by
  refine ⟨?_, ?_, ?_, ?_⟩
  · intro taskId totalSteps now acc cfg index r t h hfind
    exact agentStatusIn_resolveAgent_ok totalSteps now acc cfg index r h hfind
  · intro records s hs
    exact mem_allSourcesOf hs
  · intro records s hs
    rw [dedupSources_eq_spec] at hs
    obtain ⟨s0, hs0, huri, htitle⟩ := mem_renumberFrom _ _ hs
    have hs0' : s0 ∈ allSourcesOf records := mem_specKeepFirst _ _ hs0
    obtain ⟨r, hr, hrp, hsr⟩ := mem_allSourcesOf hs0'
    exact ⟨r, hr, hrp, s0, hsr, huri, htitle⟩
  · intro records r hr hpre hmem
    unfold successfulResultsOf at hmem
    have hfilt := List.of_mem_filter hmem
    simp [hpre] at hfilt

theorem error_classification_witness :
    agentStatusIn (resolveAgent "t1" 2 0
      ({ tasks := [("t1", { id := "t1", request := { researchTopic := "X" }, status := .researching, progress := 10, agentStatuses := [{ id := "Analyst-Agent-0", name := "Analyst Agent", status := .researching }], createdAt := 0, updatedAt := 0 })], activeTasks := ["t1"] }, 0, [])
      { name := "Analyst Agent", focus := "f", temperature := 1/2 } 0
      (.ok { researchSummary := "Error: genuine summary text", sources := [{ id := 1, uri := "https://a", title := "A" }] })).1
      "t1" "Analyst-Agent-0" = some .error ∧
    ¬ ({ researchSummary := "Error: x", sources := [], agentName := "A", agentInternalId := "A-0" } : AgentRecord) ∈
      successfulResultsOf [{ researchSummary := "Error: x", sources := [], agentName := "A", agentInternalId := "A-0" }] := by
  constructor
  · have h := error_classification.1 "t1" 2 0
      ({ tasks := [("t1", { id := "t1", request := { researchTopic := "X" }, status := .researching, progress := 10, agentStatuses := [{ id := "Analyst-Agent-0", name := "Analyst Agent", status := .researching }], createdAt := 0, updatedAt := 0 })], activeTasks := ["t1"] }, 0, [])
      { name := "Analyst Agent", focus := "f", temperature := 1/2 } 0
      { researchSummary := "Error: genuine summary text", sources := [{ id := 1, uri := "https://a", title := "A" }] }
      { id := "t1", request := { researchTopic := "X" }, status := .researching, progress := 10, agentStatuses := [{ id := "Analyst-Agent-0", name := "Analyst Agent", status := .researching }], createdAt := 0, updatedAt := 0 }
      (by decide) (by decide)
    exact h.trans (by decide)
  · exact error_classification.2.2.2
      [{ researchSummary := "Error: x", sources := [], agentName := "A", agentInternalId := "A-0" }]
      { researchSummary := "Error: x", sources := [], agentName := "A", agentInternalId := "A-0" }
      (by decide) (by decide)

end Spec2Proof
